import Mathlib

/-!
# gstreamer-imx, `src/v4l2src/v4l2src.c`: the i.MX V4L2 CSI video source

A shallow embedding of the capture session of `imxv4l2src`:

* the session record `GstImxV4l2Src` and its property setters,
* `gst_imx_v4l2src_capture_setup`, `gst_imx_v4l2src_start`, `gst_imx_v4l2src_stop`
  over an explicit device and an explicit table of open descriptors,
* `gst_imx_v4l2src_decide_allocation` over an explicit allocation query,
* `gst_imx_v4l2src_fill` over an explicit clock reading and base time,
* `gst_imx_v4l2src_fixate` / `gst_imx_v4l2src_get_caps` over a small model of caps.

C integers are mathematical integers with the wrap-around written out:
`gint` is an `Int`, `guint` a `Nat` reduced modulo `2^32`, `GstClockTime` a `Nat`
reduced modulo `2^64`.
-/

namespace ImxV4l2Src

/-! ## Constants -/

def DEFAULT_CAPTURE_MODE : Int := 0
def DEFAULT_FRAMERATE_NUM : Int := 30
def DEFAULT_FRAMERATE_DEN : Int := 1
def DEFAULT_INPUT : Int := 1
def DEFAULT_DEVICE : String := "/dev/video0"
def DEFAULT_QUEUE_SIZE : Int := 6

/-- Property identifiers, in the order of the anonymous `enum` of the source. -/
def IMX_V4L2SRC_0 : Nat := 0
def IMX_V4L2SRC_CAPTURE_MODE : Nat := 1
def IMX_V4L2SRC_FRAMERATE_NUM : Nat := 2
def IMX_V4L2SRC_INPUT : Nat := 3
def IMX_V4L2SRC_DEVICE : Nat := 4
def IMX_V4L2SRC_QUEUE_SIZE : Nat := 5

def G_MAXINT : Int := 2147483647
def G_MAXUINT : Nat := 4294967295
def G_MAXUINT64 : Nat := 18446744073709551615
def GST_CLOCK_TIME_NONE : Nat := 18446744073709551615
def GST_SECOND : Nat := 1000000000

/-- Number of values of a `guint` (and of the kernel's `__u32`). -/
def UINT_MOD : Nat := 4294967296
/-- Number of values of a `guint64` (`GstClockTime`). -/
def UINT64_MOD : Nat := 18446744073709551616

/-- Conversion of a `gint` to `guint` / `__u32`: reduction modulo `2^32`. -/
def toGuint (x : Int) : Nat := (x % 4294967296).toNat

/-- Conversion of a `__u32` to `gint`: values from `2^31` on come out negative. -/
def toGint (x : Nat) : Int :=
  if x % 4294967296 < 2147483648 then ((x % 4294967296 : Nat) : Int)
  else ((x % 4294967296 : Nat) : Int) - 4294967296

/-! ## Caps -/

/-- A non-list `GValue`: the kinds the element reads or writes. A string value may
hold `NULL`. -/
inductive GScalar where
  | int (v : Int)
  | intRange (lo hi : Int)
  | fraction (n d : Int)
  | fractionRange (lo_n lo_d hi_n hi_d : Int)
  | string (s : Option String)
deriving DecidableEq, Repr

/-- A `GValue`: a single value or a list of alternatives. -/
inductive GValue where
  | scalar (s : GScalar)
  | list (l : List GScalar)
deriving DecidableEq, Repr

/-- A caps structure: a media type name and its fields, in order. -/
structure GstStructure where
  name : String
  fields : List (String × GValue)
deriving DecidableEq, Repr

/-- Caps: an ordered list of structures, the preferred one first. -/
abbrev GstCaps := List GstStructure

/-! ## The session -/

/-- The instance record of the element. Its declaration is in `v4l2src.h`, which is
not among the sources; the fields and their types are the ones `v4l2src.c` uses: the
descriptor, the four integer properties, `fps_d` and the capture size are `gint`
(read with `g_value_get_int`, compared with 0, passed as `int`), `time_per_frame`
is a `GstClockTime`, `devicename` is a C string that may be `NULL`. The width of the
counter `count` cannot be read off the uses; it is a parameter of
`gst_imx_v4l2src_fill`. -/
structure GstImxV4l2Src where
  fd_v4l : Int
  time_per_frame : Nat
  count : Nat
  capture_mode : Int
  fps_n : Int
  fps_d : Int
  input : Int
  devicename : Option String
  queue_size : Int
  capture_width : Int
  capture_height : Int
deriving DecidableEq, Repr

/-- The image format the device reports (`struct v4l2_pix_format`, the fields read). -/
structure v4l2_pix_format where
  width : Nat
  height : Nat
  pixelformat : Nat
  sizeimage : Nat
deriving DecidableEq, Repr

/-- A capture device as the element sees it: the answer to each system call the
element makes. `open_dev` gives the descriptor (negative on failure);
`enum_framesizes` answers `VIDIOC_ENUM_FRAMESIZES` for YUV420 at an index with the
discrete width and height, or fails; `s_input`, `s_parm`, `s_fmt` say whether the
call succeeds; `g_fmt` answers `VIDIOC_G_FMT`, or fails. -/
structure Device where
  open_dev : Option String → Int
  enum_framesizes : Nat → Option (Nat × Nat)
  s_input : Int → Bool
  s_parm : Nat → Nat → Nat → Bool
  s_fmt : Bool
  g_fmt : Option v4l2_pix_format

/-- The descriptors of the process that are open. -/
abbrev FdTable := List Int

/-- The call `open(2)`: on success the new descriptor is entered in the table. -/
def sys_open (dev : Device) (path : Option String) (fds : FdTable) : Int × FdTable :=
  let fd := dev.open_dev path
  if fd < 0 then (fd, fds) else (fd, fd :: fds)

/-- The call `close(2)`: a negative descriptor is `EBADF` and changes nothing. -/
def sys_close (fds : FdTable) (fd : Int) : FdTable :=
  if fd < 0 then fds else fds.erase fd

/-- The call `ioctl(fd, VIDIOC_G_FMT, ..)`: fails on a descriptor that is not open. -/
def VIDIOC_G_FMT (dev : Device) (fds : FdTable) (fd : Int) : Option v4l2_pix_format :=
  if fd ∈ fds then dev.g_fmt else none

/-- The library function `gst_util_uint64_scale_int (val, num, denom)` of GStreamer:
`val * num / denom` truncated, `G_MAXUINT64` on overflow, and `G_MAXUINT64` when the
precondition `denom > 0`, `num >= 0` is violated. -/
def gst_util_uint64_scale_int (val : Nat) (num denom : Int) : Nat :=
  if denom ≤ 0 then G_MAXUINT64
  else if num < 0 then G_MAXUINT64
  else
    let r := val * num.toNat / denom.toNat
    if r > G_MAXUINT64 then G_MAXUINT64 else r

/-- Embedding of `gst_imx_v4l2src_capture_setup`: the returned descriptor (or `-1`),
the session and the descriptor table afterwards. -/
def gst_imx_v4l2src_capture_setup (dev : Device) (v4l2src : GstImxV4l2Src)
    (fds : FdTable) : Int × GstImxV4l2Src × FdTable :=
  let r := sys_open dev v4l2src.devicename fds
  let fd_v4l := r.1
  if fd_v4l < 0 then (-1, v4l2src, r.2)
  else
    match dev.enum_framesizes (toGuint v4l2src.capture_mode) with
    | none => (-1, v4l2src, sys_close r.2 fd_v4l)
    | some (w, h) =>
      let s1 := { v4l2src with capture_width := toGint w, capture_height := toGint h }
      if !dev.s_input s1.input then (-1, s1, sys_close r.2 fd_v4l)
      else if !dev.s_parm (toGuint s1.fps_d) (toGuint s1.fps_n) (toGuint s1.capture_mode) then
        (-1, s1, sys_close r.2 fd_v4l)
      else if !dev.s_fmt then (-1, s1, sys_close r.2 fd_v4l)
      else (fd_v4l, s1, r.2)

/-- Embedding of `gst_imx_v4l2src_start`. -/
def gst_imx_v4l2src_start (dev : Device) (v4l2src : GstImxV4l2Src) (fds : FdTable) :
    Bool × GstImxV4l2Src × FdTable :=
  let r := gst_imx_v4l2src_capture_setup dev v4l2src fds
  let s1 := { r.2.1 with fd_v4l := r.1 }
  if s1.fd_v4l < 0 then (false, s1, r.2.2)
  else
    match VIDIOC_G_FMT dev r.2.2 s1.fd_v4l with
    | none => (false, s1, r.2.2)
    | some _ =>
      (true,
       { s1 with
         time_per_frame := gst_util_uint64_scale_int GST_SECOND s1.fps_d s1.fps_n,
         count := 0 },
       r.2.2)

/-- Embedding of `gst_imx_v4l2src_stop`. -/
def gst_imx_v4l2src_stop (v4l2src : GstImxV4l2Src) (fds : FdTable) :
    Bool × GstImxV4l2Src × FdTable :=
  (true, { v4l2src with fd_v4l := -1 }, sys_close fds v4l2src.fd_v4l)

/-! ## Allocation -/

def GST_BUFFER_POOL_OPTION_VIDEO_META : String := "GstBufferPoolOptionVideoMeta"

/-- A buffer pool made by `gst_imx_v4l2_buffer_pool_new (fd)` together with the
configuration given to it: caps, buffer size, minimum and maximum buffer count, and
the options added. -/
structure GstBufferPool where
  fd : Int
  caps : Option GstCaps
  size : Nat
  min_buffers : Nat
  max_buffers : Nat
  options : List String
deriving DecidableEq, Repr

/-- One pool entry of an allocation query. -/
structure AllocationPool where
  pool : Option GstBufferPool
  size : Nat
  min_buffers : Nat
  max_buffers : Nat
deriving DecidableEq, Repr

/-- An allocation query: the negotiated caps and the pool entries, in order. -/
structure GstQuery where
  caps : Option GstCaps
  pools : List AllocationPool
deriving DecidableEq, Repr

/-- Embedding of `gst_imx_v4l2src_decide_allocation`: the result and the query
afterwards. The session and the descriptor table are only read. -/
def gst_imx_v4l2src_decide_allocation (dev : Device) (v4l2src : GstImxV4l2Src)
    (fds : FdTable) (query : GstQuery) : Bool × GstQuery :=
  let caps := query.caps
  let mmu : Nat × Nat × Bool :=
    match query.pools with
    | p :: _ => (p.min_buffers, p.max_buffers, true)
    | [] => (0, 0, false)
  let min := if mmu.1 ≠ 0 then (mmu.1 + 1) % UINT_MOD else toGuint v4l2src.queue_size
  let max := mmu.2.1
  let update := mmu.2.2
  match VIDIOC_G_FMT dev fds v4l2src.fd_v4l with
  | none => (false, query)
  | some fmt =>
    let size := fmt.sizeimage
    let pool : GstBufferPool :=
      { fd := v4l2src.fd_v4l, caps := caps, size := size, min_buffers := min,
        max_buffers := max, options := [GST_BUFFER_POOL_OPTION_VIDEO_META] }
    let entry : AllocationPool :=
      { pool := some pool, size := size, min_buffers := min, max_buffers := max }
    if update then (true, { query with pools := query.pools.set 0 entry })
    else (true, { query with pools := query.pools ++ [entry] })

/-! ## Frames -/

inductive GstFlowReturn where
  | GST_FLOW_OK
  | GST_FLOW_ERROR
deriving DecidableEq, Repr

/-- The metadata of a buffer that the element writes. -/
structure GstBuffer where
  timestamp : Nat
  duration : Nat
deriving DecidableEq, Repr

/-- Embedding of `gst_imx_v4l2src_fill`. `clock_time` is what `gst_clock_get_time`
returns (`GST_CLOCK_TIME_NONE` when there is no valid time), `base_time` what
`gst_element_get_base_time` returns; both are `GstClockTime`, and the subtraction
and the product are those of `guint64`. The counter `count` is declared in
`v4l2src.h`; the number of values of its type is the parameter `count_mod`. -/
def gst_imx_v4l2src_fill (count_mod : Nat) (clock_time base_time : Nat)
    (v4l2src : GstImxV4l2Src) (buf : GstBuffer) :
    GstFlowReturn × GstImxV4l2Src × GstBuffer :=
  let ts :=
    if clock_time ≠ GST_CLOCK_TIME_NONE then
      (clock_time + UINT64_MOD - base_time) % UINT64_MOD
    else
      (v4l2src.count * v4l2src.time_per_frame) % UINT64_MOD
  let s1 := { v4l2src with count := (v4l2src.count + 1) % count_mod }
  (GstFlowReturn.GST_FLOW_OK, s1,
   { buf with timestamp := ts, duration := v4l2src.time_per_frame })

/-! ## Properties -/

/-- The library function `g_value_get_int`: `0` when the value holds no `gint`. -/
def g_value_get_int : GValue → Int
  | .scalar (.int v) => v
  | _ => 0

/-- The library function `g_value_get_string`: `NULL` when the value holds no string. -/
def g_value_get_string : GValue → Option String
  | .scalar (.string s) => s
  | _ => none

/-- Embedding of `gst_imx_v4l2src_set_property`. An unknown identifier only warns. -/
def gst_imx_v4l2src_set_property (v4l2src : GstImxV4l2Src) (prop_id : Nat)
    (value : GValue) : GstImxV4l2Src :=
  if prop_id = IMX_V4L2SRC_CAPTURE_MODE then
    { v4l2src with capture_mode := g_value_get_int value }
  else if prop_id = IMX_V4L2SRC_FRAMERATE_NUM then
    { v4l2src with fps_n := g_value_get_int value }
  else if prop_id = IMX_V4L2SRC_INPUT then
    { v4l2src with input := g_value_get_int value }
  else if prop_id = IMX_V4L2SRC_DEVICE then
    { v4l2src with devicename := g_value_get_string value }
  else if prop_id = IMX_V4L2SRC_QUEUE_SIZE then
    { v4l2src with queue_size := g_value_get_int value }
  else v4l2src

/-- Embedding of `gst_imx_v4l2src_get_property`: the value written, if any. -/
def gst_imx_v4l2src_get_property (v4l2src : GstImxV4l2Src) (prop_id : Nat) :
    Option GValue :=
  if prop_id = IMX_V4L2SRC_CAPTURE_MODE then some (.scalar (.int v4l2src.capture_mode))
  else if prop_id = IMX_V4L2SRC_FRAMERATE_NUM then some (.scalar (.int v4l2src.fps_n))
  else if prop_id = IMX_V4L2SRC_INPUT then some (.scalar (.int v4l2src.input))
  else if prop_id = IMX_V4L2SRC_DEVICE then some (.scalar (.string v4l2src.devicename))
  else if prop_id = IMX_V4L2SRC_QUEUE_SIZE then some (.scalar (.int v4l2src.queue_size))
  else none

/-- The properties installed by `gst_imx_v4l2src_class_init`: whether the property
`prop_id` accepts `value`. The four `g_param_spec_int` properties are declared with
the range `0 .. G_MAXINT`; `device` is a `g_param_spec_string`. -/
def param_spec_accepts (prop_id : Nat) (value : GValue) : Bool :=
  if prop_id = IMX_V4L2SRC_CAPTURE_MODE ∨ prop_id = IMX_V4L2SRC_FRAMERATE_NUM
      ∨ prop_id = IMX_V4L2SRC_INPUT ∨ prop_id = IMX_V4L2SRC_QUEUE_SIZE then
    match value with
    | .scalar (.int v) => decide (0 ≤ v ∧ v ≤ G_MAXINT)
    | _ => false
  else if prop_id = IMX_V4L2SRC_DEVICE then
    match value with
    | .scalar (.string _) => true
    | _ => false
  else false

/-- The instance memory before `gst_imx_v4l2src_init` runs: GObject hands out
zero-filled instances. -/
def zeroed_instance : GstImxV4l2Src :=
  { fd_v4l := 0, time_per_frame := 0, count := 0, capture_mode := 0, fps_n := 0,
    fps_d := 0, input := 0, devicename := none, queue_size := 0, capture_width := 0,
    capture_height := 0 }

/-- Embedding of `gst_imx_v4l2src_init`. -/
def gst_imx_v4l2src_init (v4l2src : GstImxV4l2Src) : GstImxV4l2Src :=
  { v4l2src with
    capture_mode := DEFAULT_CAPTURE_MODE,
    fps_n := DEFAULT_FRAMERATE_NUM,
    fps_d := DEFAULT_FRAMERATE_DEN,
    input := DEFAULT_INPUT,
    devicename := some DEFAULT_DEVICE,
    queue_size := DEFAULT_QUEUE_SIZE }

/-! ## Caps negotiation -/

/-- The library function `gst_structure_get_value`: the value of the first field of
that name. -/
def get_value : List (String × GValue) → String → Option GValue
  | [], _ => none
  | (k, v) :: rest, name => if k = name then some v else get_value rest name

/-- The library function `gst_structure_set_value` on the field list: an existing
field is overwritten in place, a new one is appended. -/
def set_value : List (String × GValue) → String → GValue → List (String × GValue)
  | [], name, x => [(name, x)]
  | (k, v) :: rest, name, x =>
    if k = name then (k, x) :: rest else (k, v) :: set_value rest name x

/-- The list case of `gst_structure_fixate_field_nearest_int`: the first `gint` of
the list at the least distance from `target`, if the list holds a `gint`. -/
def nearest_int_in_list (target : Int) : List GScalar → Option Int → Option Int
  | [], best => best
  | GScalar.int x :: rest, none => nearest_int_in_list target rest (some x)
  | GScalar.int x :: rest, some b =>
    if |target - x| < |target - b| then nearest_int_in_list target rest (some x)
    else nearest_int_in_list target rest (some b)
  | _ :: rest, best => nearest_int_in_list target rest best

/-- The range case of `gst_structure_fixate_field_nearest_int`: the target is raised
to the minimum of the range, then lowered to its maximum. -/
def clamp_to_range (lo hi target : Int) : Int :=
  let t1 := if target < lo then lo else target
  if t1 > hi then hi else t1

/-- The library function `gst_structure_fixate_field_nearest_int` of GStreamer: a
missing or already fixed field is left alone, a range is clamped around `target`, a
list is replaced by its nearest `gint`. -/
def gst_structure_fixate_field_nearest_int (st : GstStructure)
    (field_name : String) (target : Int) : GstStructure :=
  match get_value st.fields field_name with
  | some (.scalar (.intRange lo hi)) =>
    { st with
      fields := set_value st.fields field_name (.scalar (.int (clamp_to_range lo hi target))) }
  | some (.list l) =>
    match nearest_int_in_list target l none with
    | some b =>
      { st with fields := set_value st.fields field_name (.scalar (.int b)) }
    | none => st
  | _ => st

/-- The distance of the fraction `n/d` from the target `tn/td`, as a rational. -/
def fraction_distance (tn td n d : Int) : ℚ := |(tn : ℚ) / (td : ℚ) - (n : ℚ) / (d : ℚ)|

/-- The list case of `gst_structure_fixate_field_nearest_fraction`: the first
fraction of the list at the least distance from the target. The library compares
the distances as `gdouble`; here they are compared as rationals. -/
def nearest_fraction_in_list (tn td : Int) :
    List GScalar → Option (Int × Int) → Option (Int × Int)
  | [], best => best
  | GScalar.fraction n d :: rest, none => nearest_fraction_in_list tn td rest (some (n, d))
  | GScalar.fraction n d :: rest, some b =>
    if fraction_distance tn td n d < fraction_distance tn td b.1 b.2 then
      nearest_fraction_in_list tn td rest (some (n, d))
    else nearest_fraction_in_list tn td rest (some b)
  | _ :: rest, best => nearest_fraction_in_list tn td rest best

/-- The library function `gst_structure_fixate_field_nearest_fraction` of GStreamer:
a missing or already fixed field is left alone, a range is clamped around the target
(fractions compared by cross-multiplication), a list is replaced by its nearest
fraction. A zero target denominator is refused. -/
def gst_structure_fixate_field_nearest_fraction (st : GstStructure)
    (field_name : String) (target_numerator target_denominator : Int) : GstStructure :=
  if target_denominator = 0 then st
  else
    match get_value st.fields field_name with
    | some (.scalar (.fractionRange lo_n lo_d hi_n hi_d)) =>
      let t1 : Int × Int :=
        if target_numerator * lo_d < lo_n * target_denominator then (lo_n, lo_d)
        else (target_numerator, target_denominator)
      let t2 : Int × Int :=
        if target_numerator * hi_d > hi_n * target_denominator then (hi_n, hi_d) else t1
      { st with
        fields := set_value st.fields field_name (.scalar (.fraction t2.1 t2.2)) }
    | some (.list l) =>
      match nearest_fraction_in_list target_numerator target_denominator l none with
      | some b =>
        { st with
          fields := set_value st.fields field_name (.scalar (.fraction b.1 b.2)) }
      | none => st
    | _ => st

/-- The library function `gst_value_fixate` on a non-list value: a range gives its
minimum; `none` when the value is already fixed. -/
def gst_value_fixate_scalar : GScalar → Option GScalar
  | .intRange lo _ => some (.int lo)
  | .fractionRange lo_n lo_d _ _ => some (.fraction lo_n lo_d)
  | _ => none

/-- The library function `gst_value_fixate`: a list gives its first element, itself
fixated; `none` when nothing changes (a fixed value, an empty list). -/
def gst_value_fixate : GValue → Option GValue
  | .scalar s => (gst_value_fixate_scalar s).map GValue.scalar
  | .list [] => none
  | .list (x :: _) =>
    match gst_value_fixate_scalar x with
    | some y => some (.scalar y)
    | none => some (.scalar x)

/-- The library function `gst_structure_fixate`: every field is replaced by the
value `gst_value_fixate` gives for it. -/
def gst_structure_fixate (st : GstStructure) : GstStructure :=
  { st with
    fields := st.fields.map (fun kv => (kv.1, (gst_value_fixate kv.2).getD kv.2)) }

/-- The library function `gst_caps_fixate`, which is the `fixate` of the parent
class `GstBaseSrc`: the caps are truncated to their first structure, which is then
fixated field by field. -/
def gst_caps_fixate : GstCaps → GstCaps
  | [] => []
  | s :: _ => [gst_structure_fixate s]

/-- The body of the loop of `gst_imx_v4l2src_fixate`, for one structure. -/
def fixate_structure (v4l2src : GstImxV4l2Src) (st : GstStructure) : GstStructure :=
  let s1 := gst_structure_fixate_field_nearest_int st "width" v4l2src.capture_width
  let s2 := gst_structure_fixate_field_nearest_int s1 "height" v4l2src.capture_height
  let s3 := gst_structure_fixate_field_nearest_fraction s2 "framerate"
    v4l2src.fps_n v4l2src.fps_d
  let s4 := gst_structure_fixate_field_nearest_fraction s3 "pixel-aspect-ratio" 1 1
  { s4 with fields := set_value s4.fields "format" (.scalar (.string (some "I420"))) }

/-- Embedding of `gst_imx_v4l2src_fixate`: the loop over the structures, then the
parent class. -/
def gst_imx_v4l2src_fixate (v4l2src : GstImxV4l2Src) (caps : GstCaps) : GstCaps :=
  gst_caps_fixate (caps.map (fixate_structure v4l2src))

/-- Embedding of `gst_imx_v4l2src_get_caps`; the filter is not used. -/
def gst_imx_v4l2src_get_caps (_v4l2src : GstImxV4l2Src) (_filter : Option GstCaps) :
    GstCaps :=
  [{ name := "video/x-raw",
     fields :=
      [("format", .scalar (.string (some "I420"))),
       ("width", .scalar (.intRange 16 G_MAXINT)),
       ("height", .scalar (.intRange 16 G_MAXINT)),
       ("framerate", .scalar (.fractionRange 0 1 100 1)),
       ("pixel-aspect-ratio", .scalar (.fractionRange 0 1 100 1))] }]

/-- Embedding of `gst_imx_v4l2src_set_caps`. -/
def gst_imx_v4l2src_set_caps (_v4l2src : GstImxV4l2Src) (_caps : GstCaps) : Bool := true

/-! ## The session as a transition system -/

/-- The calls the pipeline makes on the element. -/
inductive Call where
  | set_property (prop_id : Nat) (value : GValue)
  | get_property (prop_id : Nat)
  | start
  | stop
  | decide_allocation (query : GstQuery)
  | fill (clock_time base_time : Nat) (buf : GstBuffer)
  | fixate (caps : GstCaps)
  | get_caps (filter : Option GstCaps)
  | set_caps (caps : GstCaps)

/-- The session and the descriptor table after a call. -/
def step (dev : Device) (count_mod : Nat) (c : Call) (st : GstImxV4l2Src × FdTable) :
    GstImxV4l2Src × FdTable :=
  match c with
  | .set_property prop_id value => (gst_imx_v4l2src_set_property st.1 prop_id value, st.2)
  | .get_property _ => st
  | .start => (gst_imx_v4l2src_start dev st.1 st.2).2
  | .stop => (gst_imx_v4l2src_stop st.1 st.2).2
  | .decide_allocation _ => st
  | .fill clock_time base_time buf =>
    ((gst_imx_v4l2src_fill count_mod clock_time base_time st.1 buf).2.1, st.2)
  | .fixate _ => st
  | .get_caps _ => st
  | .set_caps _ => st

/-- The session after `k` frames produced while the clock reports no valid time. -/
def fill_no_clock (count_mod : Nat) (base_time : Nat) (buf : GstBuffer) :
    Nat → GstImxV4l2Src → GstImxV4l2Src
  | 0, s => s
  | k + 1, s =>
    (gst_imx_v4l2src_fill count_mod GST_CLOCK_TIME_NONE base_time
      (fill_no_clock count_mod base_time buf k s) buf).2.1

/-- The timestamp stamped on frame `k` (counting from 0) of such a sequence. -/
def timestamp_no_clock (count_mod : Nat) (base_time : Nat) (buf : GstBuffer)
    (k : Nat) (s : GstImxV4l2Src) : Nat :=
  (gst_imx_v4l2src_fill count_mod GST_CLOCK_TIME_NONE base_time
    (fill_no_clock count_mod base_time buf k s) buf).2.2.timestamp

/-- The frame-rate invariant of the data model: numerator and denominator positive. -/
def framerate_positive (s : GstImxV4l2Src) : Prop := 0 < s.fps_n ∧ 0 < s.fps_d

instance (s : GstImxV4l2Src) : Decidable (framerate_positive s) := by
  unfold framerate_positive; infer_instance

/-- The declared ranges of the four integer properties hold of the session. -/
def properties_in_range (s : GstImxV4l2Src) : Prop :=
  (0 ≤ s.capture_mode ∧ s.capture_mode ≤ G_MAXINT) ∧ (0 ≤ s.fps_n ∧ s.fps_n ≤ G_MAXINT) ∧
  (0 ≤ s.input ∧ s.input ≤ G_MAXINT) ∧ (0 ≤ s.queue_size ∧ s.queue_size ≤ G_MAXINT)

instance (s : GstImxV4l2Src) : Decidable (properties_in_range s) := by
  unfold properties_in_range; infer_instance

/-! ## Simulated devices and sessions used as concrete inputs -/

/-- A camera whose mode 0 is 640x480 and on which every call succeeds; `open` gives
descriptor 3. -/
def dev_vga : Device :=
  { open_dev := fun _ => 3,
    enum_framesizes := fun i => if i = 0 then some (640, 480) else none,
    s_input := fun _ => true,
    s_parm := fun _ _ _ => true,
    s_fmt := true,
    g_fmt := some { width := 640, height := 480, pixelformat := 842093913,
                    sizeimage := 460800 } }

/-- The same camera, refusing `VIDIOC_G_FMT`. -/
def dev_g_fmt_fails : Device := { dev_vga with g_fmt := none }

/-- The same camera, refusing `VIDIOC_S_INPUT`. -/
def dev_s_input_fails : Device := { dev_vga with s_input := fun _ => false }

/-- The session as the element is constructed. -/
def new_session : GstImxV4l2Src := gst_imx_v4l2src_init zeroed_instance

/-- The session after a successful start on `dev_vga`. -/
def started_session : GstImxV4l2Src := (gst_imx_v4l2src_start dev_vga new_session []).2.1

/-- An allocation query without pools. -/
def query_no_pool : GstQuery := { caps := none, pools := [] }

/-- An allocation query whose pool entry 0 asks for `m` buffers at least. -/
def query_with_min (m : Nat) : GstQuery :=
  { caps := none, pools := [{ pool := none, size := 0, min_buffers := m, max_buffers := 0 }] }

/-- Caps as a downstream caps filter `video/x-raw,width=320,height=240` leaves them. -/
def caps_qvga : GstCaps :=
  [{ name := "video/x-raw",
     fields := [("width", .scalar (.int 320)), ("height", .scalar (.int 240))] }]

/-- The session after frame-size enumeration answered `w` x `h`. -/
def with_capture_size (v : GstImxV4l2Src) (w h : Nat) : GstImxV4l2Src :=
  { v with capture_width := toGint w, capture_height := toGint h }

/-- The session after a sequence of frames, one per entry: the clock reading, the
base time and the buffer of each call of `gst_imx_v4l2src_fill`. -/
def fill_seq (count_mod : Nat) : List (Nat × Nat × GstBuffer) → GstImxV4l2Src → GstImxV4l2Src
  | [], s => s
  | (c, b, buf) :: rest, s =>
    fill_seq count_mod rest (gst_imx_v4l2src_fill count_mod c b s buf).2.1

/-- The default session with `fps-n` set to 2000000000, a value inside the declared
range of the property. -/
def fast_session : GstImxV4l2Src :=
  gst_imx_v4l2src_set_property new_session IMX_V4L2SRC_FRAMERATE_NUM
    (.scalar (.int 2000000000))

/-- Caps that offer 320 or 640 as width and 240 or 480 as height. -/
def caps_listed_sizes : GstCaps :=
  [{ name := "video/x-raw",
     fields := [("width", .list [.int 320, .int 640]),
                ("height", .list [.int 240, .int 480])] }]

/-! ## Lemmas -/

theorem toGuint_of_range (x : Int) (h0 : 0 ≤ x) (h1 : x ≤ G_MAXINT) :
    ((toGuint x : Nat) : Int) = x := by
  unfold toGuint G_MAXINT at *
  rw [Int.toNat_of_nonneg (Int.emod_nonneg _ (by norm_num))]
  exact Int.emod_eq_of_lt h0 (by omega)

theorem toGint_of_lt (x : Nat) (h : x < 2147483648) : toGint x = (x : Int) := by
  unfold toGint
  have h1 : x % 4294967296 = x := Nat.mod_eq_of_lt (by omega)
  rw [h1, if_pos h]

theorem sys_close_neg_one (fds : FdTable) : sys_close fds (-1) = fds := by
  simp [sys_close]

theorem sys_close_cons (fd : Int) (fds : FdTable) (h : ¬ fd < 0) :
    sys_close (fd :: fds) fd = fds := by
  simp [sys_close, h]

/-- The outcomes of `gst_imx_v4l2src_capture_setup`, case by case. -/
theorem capture_setup_cases (dev : Device) (v : GstImxV4l2Src) (fds : FdTable) :
    gst_imx_v4l2src_capture_setup dev v fds =
      if dev.open_dev v.devicename < 0 then (-1, v, fds)
      else
        match dev.enum_framesizes (toGuint v.capture_mode) with
        | none => (-1, v, fds)
        | some (w, h) =>
          if dev.s_input v.input = true
              ∧ dev.s_parm (toGuint v.fps_d) (toGuint v.fps_n) (toGuint v.capture_mode) = true
              ∧ dev.s_fmt = true then
            (dev.open_dev v.devicename, with_capture_size v w h,
              dev.open_dev v.devicename :: fds)
          else (-1, with_capture_size v w h, fds) := by
  unfold gst_imx_v4l2src_capture_setup sys_open with_capture_size
  by_cases hfd : dev.open_dev v.devicename < 0
  · simp [hfd]
  · simp only [hfd, if_false]
    cases henum : dev.enum_framesizes (toGuint v.capture_mode) with
    | none => simp [sys_close_cons _ _ hfd]
    | some wh =>
      obtain ⟨w, h1⟩ := wh
      simp only [sys_close_cons _ _ hfd]
      cases dev.s_input v.input <;>
        cases dev.s_parm (toGuint v.fps_d) (toGuint v.fps_n) (toGuint v.capture_mode) <;>
        cases dev.s_fmt <;> simp

/-- On every failure path of `gst_imx_v4l2src_capture_setup` the result is `-1` and
the descriptor table is the one before the call. -/
theorem capture_setup_failure_closes (dev : Device) (v : GstImxV4l2Src) (fds : FdTable)
    (h : (gst_imx_v4l2src_capture_setup dev v fds).1 < 0) :
    (gst_imx_v4l2src_capture_setup dev v fds).1 = -1 ∧
    (gst_imx_v4l2src_capture_setup dev v fds).2.2 = fds := by
  rw [capture_setup_cases] at h ⊢
  by_cases hfd : dev.open_dev v.devicename < 0
  · simp [hfd]
  · simp only [hfd, if_false] at h ⊢
    cases henum : dev.enum_framesizes (toGuint v.capture_mode) with
    | none => simp
    | some wh =>
      obtain ⟨w, h1⟩ := wh
      simp only [henum] at h ⊢
      split_ifs at h ⊢ with hok
      · exact absurd h hfd
      · simp

/-- The session after `gst_imx_v4l2src_capture_setup` differs from the one before in
the capture size at most. -/
theorem capture_setup_session (dev : Device) (v : GstImxV4l2Src) (fds : FdTable) :
    (gst_imx_v4l2src_capture_setup dev v fds).2.1 =
      { v with
        capture_width := (gst_imx_v4l2src_capture_setup dev v fds).2.1.capture_width,
        capture_height := (gst_imx_v4l2src_capture_setup dev v fds).2.1.capture_height } := by
  rw [capture_setup_cases]
  by_cases hfd : dev.open_dev v.devicename < 0
  · simp [hfd]
  · simp only [hfd, if_false]
    cases henum : dev.enum_framesizes (toGuint v.capture_mode) with
    | none => simp
    | some wh =>
      obtain ⟨w, h1⟩ := wh
      simp only []
      split_ifs <;> rfl

/-! ## Stop -/

/-- Claim C6. `gst_imx_v4l2src_stop` succeeds in every session state, closes the
descriptor of the session (the table of open descriptors afterwards is the one
`close` leaves: the descriptor is gone from it, every other descriptor is open
exactly when it was before) and leaves the descriptor field at the closed sentinel
`-1` with every other field as it was; on a session whose descriptor is already `-1`
neither the session nor the table of open descriptors changes; and stopping twice
is the same as stopping once. -/
theorem stop_closes_and_is_idempotent (v : GstImxV4l2Src) (fds : FdTable) :
    (gst_imx_v4l2src_stop v fds).1 = true ∧
    (gst_imx_v4l2src_stop v fds).2.1 = { v with fd_v4l := -1 } ∧
    (gst_imx_v4l2src_stop v fds).2.1.fd_v4l = -1 ∧
    (v.fd_v4l = -1 → (gst_imx_v4l2src_stop v fds).2 = (v, fds)) ∧
    gst_imx_v4l2src_stop (gst_imx_v4l2src_stop v fds).2.1 (gst_imx_v4l2src_stop v fds).2.2
      = gst_imx_v4l2src_stop v fds ∧
    (gst_imx_v4l2src_stop v fds).2.2 = sys_close fds v.fd_v4l ∧
    (¬ v.fd_v4l < 0 → (gst_imx_v4l2src_stop v fds).2.2 = fds.erase v.fd_v4l) ∧
    (¬ v.fd_v4l < 0 → fds.Nodup → v.fd_v4l ∉ (gst_imx_v4l2src_stop v fds).2.2) ∧
    (∀ fd, fd ≠ v.fd_v4l → (fd ∈ (gst_imx_v4l2src_stop v fds).2.2 ↔ fd ∈ fds)) := by
  refine ⟨rfl, rfl, rfl, ?_, ?_, rfl, ?_, ?_, ?_⟩
  · intro h
    have hv : ({ v with fd_v4l := -1 } : GstImxV4l2Src) = v := by
      cases v; simp_all
    simp only [gst_imx_v4l2src_stop, hv, h, sys_close_neg_one]
  · simp only [gst_imx_v4l2src_stop, sys_close_neg_one]
  · intro h
    show sys_close fds v.fd_v4l = fds.erase v.fd_v4l
    unfold sys_close
    rw [if_neg h]
  · intro h hnodup
    show v.fd_v4l ∉ sys_close fds v.fd_v4l
    unfold sys_close
    rw [if_neg h]
    intro hmem
    exact ((List.Nodup.mem_erase_iff hnodup).mp hmem).1 rfl
  · intro fd hne
    show fd ∈ sys_close fds v.fd_v4l ↔ fd ∈ fds
    unfold sys_close
    split_ifs
    · exact Iff.rfl
    · exact List.mem_erase_of_ne hne

/-- Claim C6 at concrete sessions: a started session that owns descriptor 3, with
descriptors 3 and 7 open, and the same session once stopped. -/
theorem stop_closes_and_is_idempotent_witness :
    (gst_imx_v4l2src_stop started_session [3, 7]).2.2 = [7] ∧
    (gst_imx_v4l2src_stop started_session [3, 7]).2.1.fd_v4l = -1 ∧
    gst_imx_v4l2src_stop (gst_imx_v4l2src_stop started_session [3, 7]).2.1
        (gst_imx_v4l2src_stop started_session [3, 7]).2.2
      = gst_imx_v4l2src_stop started_session [3, 7] ∧
    (gst_imx_v4l2src_stop (gst_imx_v4l2src_stop started_session [3, 7]).2.1 [7]).2
      = ((gst_imx_v4l2src_stop started_session [3, 7]).2.1, [7]) ∧
    (gst_imx_v4l2src_stop started_session [3, 7]).2.2
      = List.erase [3, 7] started_session.fd_v4l ∧
    started_session.fd_v4l ∉ (gst_imx_v4l2src_stop started_session [3, 7]).2.2 :=
  ⟨by decide, by decide,
   (stop_closes_and_is_idempotent started_session [3, 7]).2.2.2.2.1,
   (stop_closes_and_is_idempotent (gst_imx_v4l2src_stop started_session [3, 7]).2.1
      [7]).2.2.2.1 (by decide),
   (stop_closes_and_is_idempotent started_session [3, 7]).2.2.2.2.2.2.1 (by decide),
   (stop_closes_and_is_idempotent started_session [3, 7]).2.2.2.2.2.2.2.1 (by decide)
      (by decide)⟩

/-! ## Start -/

/-- Claim C5, evaluated where it fails: on a device that accepts every call of the
setup and then refuses `VIDIOC_G_FMT`, `gst_imx_v4l2src_start` returns failure while
the session keeps descriptor 3 and descriptor 3 stays open. -/
theorem start_g_fmt_failure_leaves_descriptor_open :
    (gst_imx_v4l2src_start dev_g_fmt_fails new_session []).1 = false ∧
    (gst_imx_v4l2src_start dev_g_fmt_fails new_session []).2.1.fd_v4l = 3 ∧
    (gst_imx_v4l2src_start dev_g_fmt_fails new_session []).2.2 = [3] := by
  decide

/-- When `gst_imx_v4l2src_start` fails inside the setup, the session descriptor is
`-1` and the descriptor table is the one before the call. -/
theorem start_setup_failure_closes (dev : Device) (v : GstImxV4l2Src) (fds : FdTable)
    (h : (gst_imx_v4l2src_capture_setup dev v fds).1 < 0) :
    (gst_imx_v4l2src_start dev v fds).1 = false ∧
    (gst_imx_v4l2src_start dev v fds).2.1.fd_v4l = -1 ∧
    (gst_imx_v4l2src_start dev v fds).2.2 = fds := by
  obtain ⟨h1, h2⟩ := capture_setup_failure_closes dev v fds h
  unfold gst_imx_v4l2src_start
  simp [h1, h2]

/-! ## Allocation -/

/-- Claim C1, amended. For every allocation query whose pool entry 0 carries a
minimum `M` with `0 < M < G_MAXUINT`, when `VIDIOC_G_FMT` succeeds,
`gst_imx_v4l2src_decide_allocation` succeeds and writes back entry 0, leaving the
other entries as they were, with the minimum exactly `M + 1`, the maximum downstream
gave and the size the device reports as `sizeimage`. -/
theorem decide_allocation_existing_pool (dev : Device) (v : GstImxV4l2Src) (fds : FdTable)
    (query : GstQuery) (p : AllocationPool) (rest : List AllocationPool)
    (fmt : v4l2_pix_format) (hq : query.pools = p :: rest)
    (hpos : 0 < p.min_buffers) (hmax : p.min_buffers < G_MAXUINT)
    (hfmt : VIDIOC_G_FMT dev fds v.fd_v4l = some fmt) :
    ∃ entry : AllocationPool,
      gst_imx_v4l2src_decide_allocation dev v fds query
        = (true, { query with pools := entry :: rest }) ∧
      entry.min_buffers = p.min_buffers + 1 ∧ entry.max_buffers = p.max_buffers ∧
      entry.size = fmt.sizeimage := by
  have hne : p.min_buffers ≠ 0 := by omega
  have hmod : (p.min_buffers + 1) % UINT_MOD = p.min_buffers + 1 := by
    apply Nat.mod_eq_of_lt
    unfold G_MAXUINT at hmax
    unfold UINT_MOD
    omega
  refine ⟨{ pool := some { fd := v.fd_v4l, caps := query.caps, size := fmt.sizeimage,
                            min_buffers := p.min_buffers + 1,
                            max_buffers := p.max_buffers,
                            options := [GST_BUFFER_POOL_OPTION_VIDEO_META] },
             size := fmt.sizeimage, min_buffers := p.min_buffers + 1,
             max_buffers := p.max_buffers }, ?_, rfl, rfl, rfl⟩
  unfold gst_imx_v4l2src_decide_allocation
  simp [hq, hfmt, hne, hmod]

theorem set_property_in_range (v : GstImxV4l2Src) (prop_id : Nat) (value : GValue)
    (hv : properties_in_range v) (hacc : param_spec_accepts prop_id value = true) :
    properties_in_range (gst_imx_v4l2src_set_property v prop_id value) := by
  obtain ⟨hm, hn, hi, hq⟩ := hv
  unfold param_spec_accepts at hacc
  unfold gst_imx_v4l2src_set_property properties_in_range
  by_cases h1 : prop_id = IMX_V4L2SRC_CAPTURE_MODE
  · cases value with
    | list l => simp [h1] at hacc
    | scalar x =>
      cases x <;> simp [h1] at hacc
      simp only [h1, if_true, g_value_get_int]
      exact ⟨hacc, hn, hi, hq⟩
  · by_cases h2 : prop_id = IMX_V4L2SRC_FRAMERATE_NUM
    · cases value with
      | list l => simp [h2] at hacc
      | scalar x =>
        cases x <;> simp [h2] at hacc
        simp only [h2, if_true, g_value_get_int]
        exact ⟨hm, hacc, hi, hq⟩
    · by_cases h3 : prop_id = IMX_V4L2SRC_INPUT
      · cases value with
        | list l => simp [h3] at hacc
        | scalar x =>
          cases x <;> simp [h3] at hacc
          simp only [h3, if_true, g_value_get_int]
          exact ⟨hm, hn, hacc, hq⟩
      · by_cases h4 : prop_id = IMX_V4L2SRC_DEVICE
        · simp only [h4, if_true]
          exact ⟨hm, hn, hi, hq⟩
        · by_cases h5 : prop_id = IMX_V4L2SRC_QUEUE_SIZE
          · cases value with
            | list l => simp [h5] at hacc
            | scalar x =>
              cases x <;> simp [h5] at hacc
              simp only [h5, if_true, g_value_get_int]
              exact ⟨hm, hn, hi, hacc⟩
          · simp only [h1, h2, h3, h4, h5, if_false]
            exact ⟨hm, hn, hi, hq⟩

/-- The declared property ranges hold of the session `gst_imx_v4l2src_init` creates
and are kept by every call, as long as the values set are values the properties
accept. -/
theorem properties_in_range_invariant :
    (∀ s0 : GstImxV4l2Src, properties_in_range (gst_imx_v4l2src_init s0)) ∧
    (∀ (dev : Device) (cm : Nat) (c : Call) (st : GstImxV4l2Src × FdTable),
      properties_in_range st.1 →
      (∀ prop_id value, c = Call.set_property prop_id value →
        param_spec_accepts prop_id value = true) →
      properties_in_range (step dev cm c st).1) := by
  constructor
  · intro s0
    show (0 ≤ DEFAULT_CAPTURE_MODE ∧ DEFAULT_CAPTURE_MODE ≤ G_MAXINT) ∧
      (0 ≤ DEFAULT_FRAMERATE_NUM ∧ DEFAULT_FRAMERATE_NUM ≤ G_MAXINT) ∧
      (0 ≤ DEFAULT_INPUT ∧ DEFAULT_INPUT ≤ G_MAXINT) ∧
      (0 ≤ DEFAULT_QUEUE_SIZE ∧ DEFAULT_QUEUE_SIZE ≤ G_MAXINT)
    decide
  · intro dev cm c st hinv hc
    cases c with
    | set_property prop_id value =>
      exact set_property_in_range st.1 prop_id value hinv (hc prop_id value rfl)
    | start =>
      have hsess := capture_setup_session dev st.1 st.2
      have hstart : ∀ r : Bool × GstImxV4l2Src × FdTable,
          r = gst_imx_v4l2src_start dev st.1 st.2 →
          r.2.1.capture_mode = st.1.capture_mode ∧ r.2.1.fps_n = st.1.fps_n ∧
          r.2.1.input = st.1.input ∧ r.2.1.queue_size = st.1.queue_size := by
        intro r hr
        have e1 : (gst_imx_v4l2src_capture_setup dev st.1 st.2).2.1.capture_mode
            = st.1.capture_mode := by rw [hsess]
        have e2 : (gst_imx_v4l2src_capture_setup dev st.1 st.2).2.1.fps_n
            = st.1.fps_n := by rw [hsess]
        have e3 : (gst_imx_v4l2src_capture_setup dev st.1 st.2).2.1.input
            = st.1.input := by rw [hsess]
        have e4 : (gst_imx_v4l2src_capture_setup dev st.1 st.2).2.1.queue_size
            = st.1.queue_size := by rw [hsess]
        subst hr
        unfold gst_imx_v4l2src_start
        by_cases hfd : (gst_imx_v4l2src_capture_setup dev st.1 st.2).1 < 0
        · simp [hfd, e1, e2, e3, e4]
        · simp only [hfd, if_false]
          cases hg : VIDIOC_G_FMT dev (gst_imx_v4l2src_capture_setup dev st.1 st.2).2.2
              (gst_imx_v4l2src_capture_setup dev st.1 st.2).1 with
          | none => simp [e1, e2, e3, e4]
          | some fmt => simp [e1, e2, e3, e4]
      obtain ⟨e1, e2, e3, e4⟩ := hstart _ rfl
      show properties_in_range (gst_imx_v4l2src_start dev st.1 st.2).2.1
      unfold properties_in_range at hinv ⊢
      rw [e1, e2, e3, e4]
      exact hinv
    | get_property _ => exact hinv
    | stop => exact hinv
    | decide_allocation _ => exact hinv
    | fill _ _ _ => exact hinv
    | fixate _ => exact hinv
    | get_caps _ => exact hinv
    | set_caps _ => exact hinv

/-- Claim C1 as stated fails at the largest `guint`: a downstream pool entry whose
minimum is 4294967295 is answered, with `VIDIOC_G_FMT` succeeding, by an updated
entry 0 whose minimum is 0, which is neither 4294967295 + 1 nor at least it. -/
theorem decide_allocation_min_wraps_at_G_MAXUINT :
    VIDIOC_G_FMT dev_vga [3] started_session.fd_v4l ≠ none ∧
    (gst_imx_v4l2src_decide_allocation dev_vga started_session [3]
        (query_with_min 4294967295)).1 = true ∧
    (gst_imx_v4l2src_decide_allocation dev_vga started_session [3]
        (query_with_min 4294967295)).2.pools.map AllocationPool.min_buffers = [0] ∧
    ¬ ((gst_imx_v4l2src_decide_allocation dev_vga started_session [3]
        (query_with_min 4294967295)).2.pools.map AllocationPool.min_buffers
          = [4294967295 + 1]) := by
  decide

/-- Claim C1, amended, at the scenario of the specification: a downstream minimum
of 2 on the started default session gives 3 in the updated entry 0. -/
theorem decide_allocation_existing_pool_witness :
    ∃ entry : AllocationPool,
      gst_imx_v4l2src_decide_allocation dev_vga started_session [3] (query_with_min 2)
        = (true, { query_with_min 2 with pools := [entry] }) ∧
      entry.min_buffers = 3 ∧ entry.max_buffers = 0 ∧ entry.size = 460800 :=
  decide_allocation_existing_pool dev_vga started_session [3] (query_with_min 2)
    { pool := none, size := 0, min_buffers := 2, max_buffers := 0 } []
    { width := 640, height := 480, pixelformat := 842093913, sizeimage := 460800 }
    rfl (by decide) (by decide) (by decide)

/-- Claim C2. On a query without pools, when `VIDIOC_G_FMT` succeeds,
`gst_imx_v4l2src_decide_allocation` succeeds and the query holds exactly one pool
entry afterwards, with the size the device reports as `sizeimage`, the minimum equal
to the configured `queue-size` and the maximum 0; with the `queue-size` that
`gst_imx_v4l2src_init` sets, the minimum is 6. The `queue-size` of the session is a
value of the declared range of the property, `0 .. G_MAXINT`. -/
theorem decide_allocation_no_pool (dev : Device) (v : GstImxV4l2Src) (fds : FdTable)
    (query : GstQuery) (fmt : v4l2_pix_format)
    (hq0 : 0 ≤ v.queue_size) (hq1 : v.queue_size ≤ G_MAXINT)
    (hq : query.pools = []) (hfmt : VIDIOC_G_FMT dev fds v.fd_v4l = some fmt) :
    ∃ entry : AllocationPool,
      gst_imx_v4l2src_decide_allocation dev v fds query
        = (true, { query with pools := [entry] }) ∧
      entry.size = fmt.sizeimage ∧
      (entry.min_buffers : Int) = v.queue_size ∧
      entry.max_buffers = 0 ∧
      (v.queue_size = (gst_imx_v4l2src_init zeroed_instance).queue_size →
        entry.min_buffers = 6) := by
  have hmin := toGuint_of_range v.queue_size hq0 hq1
  refine ⟨{ pool := some { fd := v.fd_v4l, caps := query.caps, size := fmt.sizeimage,
                            min_buffers := toGuint v.queue_size, max_buffers := 0,
                            options := [GST_BUFFER_POOL_OPTION_VIDEO_META] },
             size := fmt.sizeimage, min_buffers := toGuint v.queue_size,
             max_buffers := 0 }, ?_, rfl, hmin, rfl, ?_⟩
  · unfold gst_imx_v4l2src_decide_allocation
    simp [hq, hfmt]
  · intro hdef
    have h6 : v.queue_size = 6 := by rw [hdef]; rfl
    have : ((toGuint v.queue_size : Nat) : Int) = 6 := by rw [hmin, h6]
    exact_mod_cast this

/-- Claim C2 at a concrete input: the started default session on the 640x480 camera
and a query without pools. -/
theorem decide_allocation_no_pool_witness :
    ∃ entry : AllocationPool,
      gst_imx_v4l2src_decide_allocation dev_vga started_session [3] query_no_pool
        = (true, { query_no_pool with pools := [entry] }) ∧
      entry.size = 460800 ∧
      (entry.min_buffers : Int) = started_session.queue_size ∧
      entry.max_buffers = 0 ∧
      (started_session.queue_size = (gst_imx_v4l2src_init zeroed_instance).queue_size →
        entry.min_buffers = 6) :=
  decide_allocation_no_pool dev_vga started_session [3] query_no_pool
    { width := 640, height := 480, pixelformat := 842093913, sizeimage := 460800 }
    (by decide) (by decide) rfl (by decide)

/-! ## Frame period and time stamps -/

theorem start_success (dev : Device) (v : GstImxV4l2Src) (fds : FdTable)
    (hs : (gst_imx_v4l2src_start dev v fds).1 = true) :
    (gst_imx_v4l2src_start dev v fds).2.1.time_per_frame
      = gst_util_uint64_scale_int GST_SECOND v.fps_d v.fps_n ∧
    (gst_imx_v4l2src_start dev v fds).2.1.count = 0 := by
  have hsess := capture_setup_session dev v fds
  unfold gst_imx_v4l2src_start at hs ⊢
  by_cases hfd : (gst_imx_v4l2src_capture_setup dev v fds).1 < 0
  · simp [hfd] at hs
  · simp only [hfd, if_false] at hs ⊢
    cases hg : VIDIOC_G_FMT dev (gst_imx_v4l2src_capture_setup dev v fds).2.2
        (gst_imx_v4l2src_capture_setup dev v fds).1 with
    | none => simp [hg] at hs
    | some fmt =>
      constructor
      · show gst_util_uint64_scale_int GST_SECOND
            (gst_imx_v4l2src_capture_setup dev v fds).2.1.fps_d
            (gst_imx_v4l2src_capture_setup dev v fds).2.1.fps_n = _
        rw [hsess]
      · rfl

theorem scale_int_second (n d : Int) (hn : 0 < n) (hd0 : 0 ≤ d) (hd : d ≤ G_MAXINT) :
    gst_util_uint64_scale_int GST_SECOND d n = GST_SECOND * d.toNat / n.toNat := by
  unfold gst_util_uint64_scale_int
  have h1 : ¬ n ≤ 0 := by omega
  have h2 : ¬ d < 0 := by omega
  have hdn : d.toNat ≤ 2147483647 := by unfold G_MAXINT at hd; omega
  have h3 : GST_SECOND * d.toNat / n.toNat ≤ G_MAXUINT64 := by
    calc GST_SECOND * d.toNat / n.toNat ≤ GST_SECOND * d.toNat := Nat.div_le_self _ _
      _ ≤ GST_SECOND * 2147483647 := Nat.mul_le_mul_left _ hdn
      _ ≤ G_MAXUINT64 := by unfold GST_SECOND G_MAXUINT64; norm_num
  simp only [h1, h2, if_false]
  rw [if_neg (by omega)]

theorem fill_duration (cm c b : Nat) (s : GstImxV4l2Src) (buf : GstBuffer) :
    (gst_imx_v4l2src_fill cm c b s buf).2.2.duration = s.time_per_frame := rfl

theorem fill_time_per_frame (cm c b : Nat) (s : GstImxV4l2Src) (buf : GstBuffer) :
    (gst_imx_v4l2src_fill cm c b s buf).2.1.time_per_frame = s.time_per_frame := rfl

theorem fill_seq_time_per_frame (cm : Nat) (l : List (Nat × Nat × GstBuffer))
    (s : GstImxV4l2Src) : (fill_seq cm l s).time_per_frame = s.time_per_frame := by
  induction l generalizing s with
  | nil => rfl
  | cons x rest ih =>
    obtain ⟨c, b, buf⟩ := x
    simp only [fill_seq]
    rw [ih, fill_time_per_frame]

/-- Claim C4 as stated fails at the default frame rate 30/1: the start succeeds, the
frame period is 33333333 ns, and 33333333 x 30 is not 1000000000 x 1. -/
theorem default_period_times_rate_is_not_a_second :
    0 < new_session.fps_n ∧ 0 < new_session.fps_d ∧
    (gst_imx_v4l2src_start dev_vga new_session []).1 = true ∧
    ¬ ((gst_imx_v4l2src_start dev_vga new_session []).2.1.time_per_frame * 30
        = 1000000000 * 1) := by
  decide

/-- Claim C4, amended. For a frame rate `n/d` with `n`, `d` positive `gint`, the frame
period computed by a successful `gst_imx_v4l2src_start` is `10^9 * d / n` nanoseconds
rounded down: `period * n <= 10^9 * d < (period + 1) * n`, with equality on the left
exactly when `n` divides `10^9 * d`; and every frame produced afterwards carries that
period as its duration, whatever the clock reads. -/
theorem start_period_is_truncated_quotient (dev : Device) (v : GstImxV4l2Src)
    (fds : FdTable) (hn : 0 < v.fps_n) (hd : 0 < v.fps_d) (hdmax : v.fps_d ≤ G_MAXINT)
    (hs : (gst_imx_v4l2src_start dev v fds).1 = true) :
    (gst_imx_v4l2src_start dev v fds).2.1.time_per_frame
      = 1000000000 * v.fps_d.toNat / v.fps_n.toNat ∧
    ((gst_imx_v4l2src_start dev v fds).2.1.time_per_frame : Int) * v.fps_n
      ≤ 1000000000 * v.fps_d ∧
    1000000000 * v.fps_d
      < (((gst_imx_v4l2src_start dev v fds).2.1.time_per_frame : Int) + 1) * v.fps_n ∧
    (((gst_imx_v4l2src_start dev v fds).2.1.time_per_frame : Int) * v.fps_n
      = 1000000000 * v.fps_d ↔ v.fps_n ∣ 1000000000 * v.fps_d) ∧
    ∀ (cm : Nat) (frames : List (Nat × Nat × GstBuffer)) (c b : Nat) (buf : GstBuffer),
      (gst_imx_v4l2src_fill cm c b
          (fill_seq cm frames (gst_imx_v4l2src_start dev v fds).2.1) buf).2.2.duration
        = (gst_imx_v4l2src_start dev v fds).2.1.time_per_frame := by
  have htpf := (start_success dev v fds hs).1
  rw [scale_int_second v.fps_n v.fps_d hn (le_of_lt hd) hdmax] at htpf
  unfold GST_SECOND at htpf
  obtain ⟨n, hn'⟩ := Int.eq_ofNat_of_zero_le (le_of_lt hn)
  obtain ⟨d, hd'⟩ := Int.eq_ofNat_of_zero_le (le_of_lt hd)
  rw [hn', hd'] at htpf ⊢
  simp only [Int.toNat_ofNat] at htpf ⊢
  have hnpos : 0 < n := by omega
  rw [htpf]
  refine ⟨rfl, ?_, ?_, ?_, ?_⟩
  · have := Nat.div_mul_le_self (1000000000 * d) n
    exact_mod_cast this
  · have := Nat.lt_mul_div_succ (1000000000 * d) hnpos
    have h2 : 1000000000 * d < (1000000000 * d / n + 1) * n := by
      rw [Nat.mul_comm (1000000000 * d / n + 1) n]; exact this
    exact_mod_cast h2
  · constructor
    · intro h
      have h2 : 1000000000 * d / n * n = 1000000000 * d := by exact_mod_cast h
      have h3 : n ∣ 1000000000 * d := Dvd.intro_left _ h2
      exact_mod_cast h3
    · intro h
      have h3 : n ∣ 1000000000 * d := by exact_mod_cast h
      have h2 := Nat.div_mul_cancel h3
      exact_mod_cast h2
  · intro cm frames c b buf
    rw [fill_duration, fill_seq_time_per_frame, htpf]

/-- Claim C4, amended, at the default frame rate 30/1 on the 640x480 camera. -/
theorem start_period_is_truncated_quotient_witness :
    (gst_imx_v4l2src_start dev_vga new_session []).2.1.time_per_frame
      = 1000000000 * new_session.fps_d.toNat / new_session.fps_n.toNat :=
  (start_period_is_truncated_quotient dev_vga new_session [] (by decide) (by decide)
    (by decide) (by decide)).1

/-- Claim C7 as stated fails when the base time lies after the clock reading: with
the clock at 5 and the base time at 10 the stamp is `2^64 - 5`, which is neither
`5 - 10` nor a value no greater than 5. -/
theorem fill_stamp_wraps_when_base_after_clock :
    (5 : Nat) ≠ GST_CLOCK_TIME_NONE ∧
    (gst_imx_v4l2src_fill 4294967296 5 10 started_session ⟨0, 0⟩).2.2.timestamp
      = 18446744073709551611 ∧
    ¬ ((gst_imx_v4l2src_fill 4294967296 5 10 started_session ⟨0, 0⟩).2.2.timestamp ≤ 5) := by
  decide

/-- Claim C7, amended. With a valid clock reading `c` and a base time `b` that is not
after it, `gst_imx_v4l2src_fill` stamps the elapsed time `c - b`, a value no greater
than `c`; and, the counter not being at the largest value of its type, the frame
counter is incremented by exactly one, the same as on the path without a valid
clock. -/
theorem fill_stamp_with_clock (cm c b : Nat) (s : GstImxV4l2Src) (buf : GstBuffer)
    (hvalid : c ≠ GST_CLOCK_TIME_NONE) (hc : c < UINT64_MOD) (hle : b ≤ c)
    (hcount : s.count + 1 < cm) :
    (gst_imx_v4l2src_fill cm c b s buf).2.2.timestamp = c - b ∧
    (gst_imx_v4l2src_fill cm c b s buf).2.2.timestamp ≤ c ∧
    (gst_imx_v4l2src_fill cm c b s buf).2.1.count = s.count + 1 ∧
    (gst_imx_v4l2src_fill cm c b s buf).2.1.count
      = (gst_imx_v4l2src_fill cm GST_CLOCK_TIME_NONE b s buf).2.1.count := by
  have hts : (gst_imx_v4l2src_fill cm c b s buf).2.2.timestamp
      = (c + UINT64_MOD - b) % UINT64_MOD := by
    simp [gst_imx_v4l2src_fill, hvalid]
  have h1 : c + UINT64_MOD - b = (c - b) + UINT64_MOD := by omega
  have h2 : c - b < UINT64_MOD := by omega
  have hts' : (gst_imx_v4l2src_fill cm c b s buf).2.2.timestamp = c - b := by
    rw [hts, h1, Nat.add_mod_right, Nat.mod_eq_of_lt h2]
  refine ⟨hts', ?_, ?_, rfl⟩
  · rw [hts']; exact Nat.sub_le c b
  · show (s.count + 1) % cm = s.count + 1
    exact Nat.mod_eq_of_lt hcount

/-- Claim C7, amended, at a concrete input: clock at 1000, base time 400, a 32-bit
counter, the session just started. -/
theorem fill_stamp_with_clock_witness :
    (gst_imx_v4l2src_fill 4294967296 1000 400 started_session ⟨0, 0⟩).2.2.timestamp
      = 1000 - 400 ∧
    (gst_imx_v4l2src_fill 4294967296 1000 400 started_session ⟨0, 0⟩).2.1.count
      = started_session.count + 1 :=
  ⟨(fill_stamp_with_clock 4294967296 1000 400 started_session ⟨0, 0⟩ (by decide)
      (by decide) (by decide) (by decide)).1,
   (fill_stamp_with_clock 4294967296 1000 400 started_session ⟨0, 0⟩ (by decide)
      (by decide) (by decide) (by decide)).2.2.1⟩

theorem fill_no_clock_time_per_frame (cm base : Nat) (buf : GstBuffer) (k : Nat)
    (s : GstImxV4l2Src) :
    (fill_no_clock cm base buf k s).time_per_frame = s.time_per_frame := by
  induction k with
  | zero => rfl
  | succ k ih => simp only [fill_no_clock]; rw [fill_time_per_frame, ih]

theorem fill_no_clock_count (cm base : Nat) (buf : GstBuffer) (k : Nat)
    (s : GstImxV4l2Src) (h0 : s.count = 0) (hk : k < cm) :
    (fill_no_clock cm base buf k s).count = k := by
  induction k with
  | zero => exact h0
  | succ k ih =>
    have ihk := ih (by omega)
    show ((fill_no_clock cm base buf k s).count + 1) % cm = k + 1
    rw [ihk]
    exact Nat.mod_eq_of_lt hk

theorem timestamp_no_clock_eq (cm base : Nat) (buf : GstBuffer) (k : Nat)
    (s : GstImxV4l2Src) (h0 : s.count = 0) (hk : k < cm)
    (hov : k * s.time_per_frame < UINT64_MOD) :
    timestamp_no_clock cm base buf k s = k * s.time_per_frame := by
  have hcnt := fill_no_clock_count cm base buf k s h0 hk
  have htpf := fill_no_clock_time_per_frame cm base buf k s
  unfold timestamp_no_clock gst_imx_v4l2src_fill
  simp only [ne_eq, not_true_eq_false, if_false]
  rw [hcnt, htpf]
  exact Nat.mod_eq_of_lt hov

/-- Claim C3 as stated fails at 2000000000 frames per second, a value the `fps-n`
property accepts: the start succeeds with a frame period of 0 ns, frames 0 and 1
are both stamped 0, and the stamps do not increase. -/
theorem no_clock_stamps_not_increasing_at_zero_period :
    param_spec_accepts IMX_V4L2SRC_FRAMERATE_NUM (.scalar (.int 2000000000)) = true ∧
    (gst_imx_v4l2src_start dev_vga fast_session []).1 = true ∧
    ¬ (timestamp_no_clock 4294967296 0 ⟨0, 0⟩ 0
          (gst_imx_v4l2src_start dev_vga fast_session []).2.1
        < timestamp_no_clock 4294967296 0 ⟨0, 0⟩ 1
          (gst_imx_v4l2src_start dev_vga fast_session []).2.1) := by
  decide

/-- Claim C3, amended. After a successful start, while the clock reports no valid
time, and as long as `k` is inside the range of the counter and `k` x framePeriod is
inside the range of `GstClockTime`: frame `k` (counting from 0) is stamped
`k` x framePeriod, the counter after `k` frames is `k`, and when the frame period is
not 0 the stamps of the earlier frames are strictly smaller. -/
theorem no_clock_stamps (dev : Device) (v : GstImxV4l2Src) (fds : FdTable)
    (cm base : Nat) (buf : GstBuffer) (k : Nat)
    (hs : (gst_imx_v4l2src_start dev v fds).1 = true) (hk : k < cm)
    (hov : k * (gst_imx_v4l2src_start dev v fds).2.1.time_per_frame < UINT64_MOD) :
    timestamp_no_clock cm base buf k (gst_imx_v4l2src_start dev v fds).2.1
      = k * (gst_imx_v4l2src_start dev v fds).2.1.time_per_frame ∧
    (fill_no_clock cm base buf k (gst_imx_v4l2src_start dev v fds).2.1).count = k ∧
    (0 < (gst_imx_v4l2src_start dev v fds).2.1.time_per_frame →
      ∀ j, j < k →
        timestamp_no_clock cm base buf j (gst_imx_v4l2src_start dev v fds).2.1
          < timestamp_no_clock cm base buf k (gst_imx_v4l2src_start dev v fds).2.1) := by
  have h0 := (start_success dev v fds hs).2
  refine ⟨timestamp_no_clock_eq cm base buf k _ h0 hk hov,
    fill_no_clock_count cm base buf k _ h0 hk, ?_⟩
  intro hpos j hj
  have hjk : j * (gst_imx_v4l2src_start dev v fds).2.1.time_per_frame
      < k * (gst_imx_v4l2src_start dev v fds).2.1.time_per_frame :=
    Nat.mul_lt_mul_of_pos_right hj hpos
  rw [timestamp_no_clock_eq cm base buf j _ h0 (by omega) (by omega),
    timestamp_no_clock_eq cm base buf k _ h0 hk hov]
  exact hjk

/-- Claim C3, amended, at the default session on the 640x480 camera, frame 3 with a
32-bit counter. -/
theorem no_clock_stamps_witness :
    timestamp_no_clock 4294967296 0 ⟨0, 0⟩ 3 (gst_imx_v4l2src_start dev_vga new_session []).2.1
      = 3 * (gst_imx_v4l2src_start dev_vga new_session []).2.1.time_per_frame ∧
    (fill_no_clock 4294967296 0 ⟨0, 0⟩ 3
      (gst_imx_v4l2src_start dev_vga new_session []).2.1).count = 3 ∧
    timestamp_no_clock 4294967296 0 ⟨0, 0⟩ 2 (gst_imx_v4l2src_start dev_vga new_session []).2.1
      < timestamp_no_clock 4294967296 0 ⟨0, 0⟩ 3
          (gst_imx_v4l2src_start dev_vga new_session []).2.1 :=
  ⟨(no_clock_stamps dev_vga new_session [] 4294967296 0 ⟨0, 0⟩ 3 (by decide) (by decide)
      (by decide)).1,
   (no_clock_stamps dev_vga new_session [] 4294967296 0 ⟨0, 0⟩ 3 (by decide) (by decide)
      (by decide)).2.1,
   (no_clock_stamps dev_vga new_session [] 4294967296 0 ⟨0, 0⟩ 3 (by decide) (by decide)
      (by decide)).2.2 (by decide) 2 (by decide)⟩

/-! ## The frame-rate invariant -/

theorem start_keeps_properties (dev : Device) (v : GstImxV4l2Src) (fds : FdTable) :
    (gst_imx_v4l2src_start dev v fds).2.1.fps_n = v.fps_n ∧
    (gst_imx_v4l2src_start dev v fds).2.1.fps_d = v.fps_d ∧
    (gst_imx_v4l2src_start dev v fds).2.1.capture_width
      = (gst_imx_v4l2src_capture_setup dev v fds).2.1.capture_width ∧
    (gst_imx_v4l2src_start dev v fds).2.1.capture_height
      = (gst_imx_v4l2src_capture_setup dev v fds).2.1.capture_height := by
  have hsess := capture_setup_session dev v fds
  have hn : (gst_imx_v4l2src_capture_setup dev v fds).2.1.fps_n = v.fps_n := by rw [hsess]
  have hd : (gst_imx_v4l2src_capture_setup dev v fds).2.1.fps_d = v.fps_d := by rw [hsess]
  unfold gst_imx_v4l2src_start
  by_cases hfd : (gst_imx_v4l2src_capture_setup dev v fds).1 < 0
  · simp [hfd, hn, hd]
  · simp only [hfd, if_false]
    cases hg : VIDIOC_G_FMT dev (gst_imx_v4l2src_capture_setup dev v fds).2.2
        (gst_imx_v4l2src_capture_setup dev v fds).1 with
    | none => simp [hn, hd]
    | some fmt => simp [hn, hd]

theorem set_property_fps (v : GstImxV4l2Src) (prop_id : Nat) (value : GValue) :
    (gst_imx_v4l2src_set_property v prop_id value).fps_d = v.fps_d ∧
    (prop_id ≠ IMX_V4L2SRC_FRAMERATE_NUM →
      (gst_imx_v4l2src_set_property v prop_id value).fps_n = v.fps_n) ∧
    (gst_imx_v4l2src_set_property v IMX_V4L2SRC_FRAMERATE_NUM value).fps_n
      = g_value_get_int value := by
  unfold gst_imx_v4l2src_set_property
  refine ⟨?_, ?_, ?_⟩
  · split_ifs <;> rfl
  · intro hne
    split_ifs <;> rfl
  · simp [IMX_V4L2SRC_FRAMERATE_NUM, IMX_V4L2SRC_CAPTURE_MODE]

/-- Claim C8 as stated fails: the value 0 lies in the declared range of `fps-n`, and
setting it on the freshly initialised session, where the predicate holds, leaves a
numerator that is not positive. -/
theorem fps_n_zero_breaks_framerate_positive :
    framerate_positive new_session ∧
    param_spec_accepts IMX_V4L2SRC_FRAMERATE_NUM (.scalar (.int 0)) = true ∧
    ¬ framerate_positive
        (gst_imx_v4l2src_set_property new_session IMX_V4L2SRC_FRAMERATE_NUM
          (.scalar (.int 0))) := by
  decide

/-- Claim C8, amended. The predicate "numerator > 0 and denominator > 0" holds for
the session `gst_imx_v4l2src_init` creates and is preserved by every call on the
session other than setting `fps-n` to a value that is not positive; setting `fps-n`
stores the value given, so the numerator is positive afterwards exactly when that
value is; the denominator stays positive under every call. -/
theorem framerate_positive_invariant :
    (∀ s0 : GstImxV4l2Src, framerate_positive (gst_imx_v4l2src_init s0)) ∧
    (∀ (dev : Device) (cm : Nat) (c : Call) (st : GstImxV4l2Src × FdTable),
      framerate_positive st.1 →
      (∀ value, c = Call.set_property IMX_V4L2SRC_FRAMERATE_NUM value →
        0 < g_value_get_int value) →
      framerate_positive (step dev cm c st).1) ∧
    (∀ (v : GstImxV4l2Src) (value : GValue),
      (gst_imx_v4l2src_set_property v IMX_V4L2SRC_FRAMERATE_NUM value).fps_n
        = g_value_get_int value) ∧
    (∀ (dev : Device) (cm : Nat) (c : Call) (st : GstImxV4l2Src × FdTable),
      0 < st.1.fps_d → 0 < (step dev cm c st).1.fps_d) := by
  refine ⟨?_, ?_, ?_, ?_⟩
  · intro s0
    show 0 < DEFAULT_FRAMERATE_NUM ∧ 0 < DEFAULT_FRAMERATE_DEN
    exact ⟨by decide, by decide⟩
  · intro dev cm c st hinv hc
    obtain ⟨hn, hd⟩ := hinv
    cases c with
    | set_property prop_id value =>
      obtain ⟨h1, h2, h3⟩ := set_property_fps st.1 prop_id value
      show 0 < (gst_imx_v4l2src_set_property st.1 prop_id value).fps_n ∧
        0 < (gst_imx_v4l2src_set_property st.1 prop_id value).fps_d
      rw [h1]
      refine ⟨?_, hd⟩
      by_cases hp : prop_id = IMX_V4L2SRC_FRAMERATE_NUM
      · subst hp
        rw [h3]
        exact hc value rfl
      · rw [h2 hp]; exact hn
    | start =>
      obtain ⟨h1, h2, _, _⟩ := start_keeps_properties dev st.1 st.2
      show 0 < (gst_imx_v4l2src_start dev st.1 st.2).2.1.fps_n ∧
        0 < (gst_imx_v4l2src_start dev st.1 st.2).2.1.fps_d
      rw [h1, h2]; exact ⟨hn, hd⟩
    | get_property _ => exact ⟨hn, hd⟩
    | stop => exact ⟨hn, hd⟩
    | decide_allocation _ => exact ⟨hn, hd⟩
    | fill _ _ _ => exact ⟨hn, hd⟩
    | fixate _ => exact ⟨hn, hd⟩
    | get_caps _ => exact ⟨hn, hd⟩
    | set_caps _ => exact ⟨hn, hd⟩
  · intro v value
    exact (set_property_fps v IMX_V4L2SRC_FRAMERATE_NUM value).2.2
  · intro dev cm c st hd
    cases c with
    | set_property prop_id value =>
      show 0 < (gst_imx_v4l2src_set_property st.1 prop_id value).fps_d
      rw [(set_property_fps st.1 prop_id value).1]; exact hd
    | start =>
      show 0 < (gst_imx_v4l2src_start dev st.1 st.2).2.1.fps_d
      rw [(start_keeps_properties dev st.1 st.2).2.1]; exact hd
    | get_property _ => exact hd
    | stop => exact hd
    | decide_allocation _ => exact hd
    | fill _ _ _ => exact hd
    | fixate _ => exact hd
    | get_caps _ => exact hd
    | set_caps _ => exact hd

/-- Claim C8, amended, at a concrete call: setting `fps-n` to 25 on the new session. -/
theorem framerate_positive_invariant_witness :
    framerate_positive
      (step dev_vga 4294967296
        (Call.set_property IMX_V4L2SRC_FRAMERATE_NUM (.scalar (.int 25)))
        (new_session, [])).1 :=
  framerate_positive_invariant.2.1 dev_vga 4294967296
    (Call.set_property IMX_V4L2SRC_FRAMERATE_NUM (.scalar (.int 25))) (new_session, [])
    (by decide)
    (by
      intro value h
      cases h
      decide)

/-! ## The capture size on failure -/

/-- Claim C10 as stated fails: on a camera that answers the frame-size enumeration
with 640x480 and then refuses the input selection, the setup (and the start) fail
while the capture width has changed from 0 to 640 and the height from 0 to 480. -/
theorem capture_size_written_before_failure :
    (gst_imx_v4l2src_capture_setup dev_s_input_fails new_session []).1 = -1 ∧
    (gst_imx_v4l2src_start dev_s_input_fails new_session []).1 = false ∧
    new_session.capture_width = 0 ∧ new_session.capture_height = 0 ∧
    (gst_imx_v4l2src_capture_setup dev_s_input_fails new_session []).2.1.capture_width = 640 ∧
    (gst_imx_v4l2src_capture_setup dev_s_input_fails new_session []).2.1.capture_height = 480 ∧
    (gst_imx_v4l2src_start dev_s_input_fails new_session []).2.1.capture_width = 640 := by
  decide

/-- Claim C10, amended. When `gst_imx_v4l2src_capture_setup` fails at the device open
or at the frame-size enumeration, the session is the same after the call as before
it, capture width and height included; when it fails at a later step (input
selection, stream parameters, format), the capture width and height are the size the
device enumerated for the configured mode. `gst_imx_v4l2src_start` leaves the same
capture size as its setup. -/
theorem capture_size_on_failure (dev : Device) (v : GstImxV4l2Src) (fds : FdTable)
    (hfail : (gst_imx_v4l2src_capture_setup dev v fds).1 < 0) :
    ((dev.open_dev v.devicename < 0 ∨
        dev.enum_framesizes (toGuint v.capture_mode) = none) →
      (gst_imx_v4l2src_capture_setup dev v fds).2.1 = v) ∧
    (∀ w h, ¬ dev.open_dev v.devicename < 0 →
      dev.enum_framesizes (toGuint v.capture_mode) = some (w, h) →
      (gst_imx_v4l2src_capture_setup dev v fds).2.1.capture_width = toGint w ∧
      (gst_imx_v4l2src_capture_setup dev v fds).2.1.capture_height = toGint h) ∧
    (gst_imx_v4l2src_start dev v fds).1 = false ∧
    (gst_imx_v4l2src_start dev v fds).2.1.capture_width
      = (gst_imx_v4l2src_capture_setup dev v fds).2.1.capture_width ∧
    (gst_imx_v4l2src_start dev v fds).2.1.capture_height
      = (gst_imx_v4l2src_capture_setup dev v fds).2.1.capture_height := by
  obtain ⟨_, _, hw, hh⟩ := start_keeps_properties dev v fds
  refine ⟨?_, ?_, (start_setup_failure_closes dev v fds hfail).1, hw, hh⟩
  · intro hcase
    rw [capture_setup_cases]
    rcases hcase with hopen | henum
    · simp [hopen]
    · by_cases hfd : dev.open_dev v.devicename < 0
      · simp [hfd]
      · simp [hfd, henum]
  · intro w h hopen henum
    rw [capture_setup_cases]
    simp only [hopen, if_false, henum]
    split_ifs <;> exact ⟨rfl, rfl⟩

/-- Claim C10, amended, at a concrete input: the camera that refuses the input
selection after enumerating 640x480. -/
theorem capture_size_on_failure_witness :
    (gst_imx_v4l2src_capture_setup dev_s_input_fails new_session []).2.1.capture_width
      = toGint 640 ∧
    (gst_imx_v4l2src_capture_setup dev_s_input_fails new_session []).2.1.capture_height
      = toGint 480 :=
  (capture_size_on_failure dev_s_input_fails new_session [] (by decide)).2.1 640 480
    (by decide) (by decide)

/-! ## Fixation -/

theorem get_value_set_value_same (fs : List (String × GValue)) (name : String) (x : GValue) :
    get_value (set_value fs name x) name = some x := by
  induction fs with
  | nil => simp [set_value, get_value]
  | cons kv rest ih =>
    obtain ⟨k, v⟩ := kv
    by_cases hk : k = name
    · simp [set_value, get_value, hk]
    · simp [set_value, get_value, hk, ih]

theorem get_value_set_value_other (fs : List (String × GValue)) (name other : String)
    (x : GValue) (hne : name ≠ other) :
    get_value (set_value fs name x) other = get_value fs other := by
  induction fs with
  | nil => simp [set_value, get_value, hne]
  | cons kv rest ih =>
    obtain ⟨k, v⟩ := kv
    by_cases hk : k = name
    · subst hk
      simp [set_value, get_value, hne]
    · by_cases ho : k = other
      · subst ho
        simp [set_value, get_value, hk]
      · simp [set_value, get_value, hk, ho, ih]

theorem nearest_int_other_field (st : GstStructure) (name other : String) (target : Int)
    (hne : name ≠ other) :
    get_value (gst_structure_fixate_field_nearest_int st name target).fields other
      = get_value st.fields other := by
  unfold gst_structure_fixate_field_nearest_int
  split
  · exact get_value_set_value_other _ _ _ _ hne
  · split
    · exact get_value_set_value_other _ _ _ _ hne
    · rfl
  · rfl

theorem nearest_fraction_other_field (st : GstStructure) (name other : String)
    (tn td : Int) (hne : name ≠ other) :
    get_value (gst_structure_fixate_field_nearest_fraction st name tn td).fields other
      = get_value st.fields other := by
  unfold gst_structure_fixate_field_nearest_fraction
  split_ifs
  · rfl
  · split
    · exact get_value_set_value_other _ _ _ _ hne
    · split
      · exact get_value_set_value_other _ _ _ _ hne
      · rfl
    · rfl

theorem nearest_int_range (st : GstStructure) (name : String) (target lo hi : Int)
    (h : get_value st.fields name = some (.scalar (.intRange lo hi))) :
    get_value (gst_structure_fixate_field_nearest_int st name target).fields name
      = some (.scalar (.int (clamp_to_range lo hi target))) := by
  unfold gst_structure_fixate_field_nearest_int
  rw [h]
  exact get_value_set_value_same _ _ _

theorem nearest_int_fixed (st : GstStructure) (name : String) (target x : Int)
    (h : get_value st.fields name = some (.scalar (.int x))) :
    get_value (gst_structure_fixate_field_nearest_int st name target).fields name
      = some (.scalar (.int x)) := by
  unfold gst_structure_fixate_field_nearest_int
  rw [h]
  exact h

/-- The search of `nearest_int_in_list` started from a candidate `b0`: the result is
`b0` or a `gint` of the list, and no `gint` of the list, nor `b0`, is nearer to the
target. -/
theorem nearest_int_in_list_some (t : Int) (l : List GScalar) (b0 : Int) :
    ∃ b, nearest_int_in_list t l (some b0) = some b ∧
      (b = b0 ∨ GScalar.int b ∈ l) ∧ |t - b| ≤ |t - b0| ∧
      ∀ y, GScalar.int y ∈ l → |t - b| ≤ |t - y| := by
  induction l generalizing b0 with
  | nil =>
    exact ⟨b0, rfl, Or.inl rfl, le_refl _, fun y hy => by simp at hy⟩
  | cons hd rest ih =>
    cases hd with
    | int x =>
      by_cases hlt : |t - x| < |t - b0|
      · obtain ⟨b, hb, hmem, hle, hmin⟩ := ih x
        refine ⟨b, ?_, ?_, ?_, ?_⟩
        · simp only [nearest_int_in_list, hlt, if_true]; exact hb
        · rcases hmem with h | h
          · right; rw [h]; exact List.mem_cons_self _ _
          · right; exact List.mem_cons_of_mem _ h
        · exact le_of_lt (lt_of_le_of_lt hle hlt)
        · intro y hy
          rcases List.mem_cons.mp hy with h | h
          · cases h; exact hle
          · exact hmin y h
      · obtain ⟨b, hb, hmem, hle, hmin⟩ := ih b0
        refine ⟨b, ?_, ?_, hle, ?_⟩
        · simp only [nearest_int_in_list, hlt, if_false]; exact hb
        · rcases hmem with h | h
          · left; exact h
          · right; exact List.mem_cons_of_mem _ h
        · intro y hy
          rcases List.mem_cons.mp hy with h | h
          · cases h; exact le_trans hle (not_lt.mp hlt)
          · exact hmin y h
    | intRange lo hi =>
      obtain ⟨b, hb, hmem, hle, hmin⟩ := ih b0
      refine ⟨b, by simpa only [nearest_int_in_list] using hb, ?_, hle, ?_⟩
      · exact hmem.imp id (List.mem_cons_of_mem _)
      · intro y hy
        rcases List.mem_cons.mp hy with h | h
        · cases h
        · exact hmin y h
    | fraction n d =>
      obtain ⟨b, hb, hmem, hle, hmin⟩ := ih b0
      refine ⟨b, by simpa only [nearest_int_in_list] using hb, ?_, hle, ?_⟩
      · exact hmem.imp id (List.mem_cons_of_mem _)
      · intro y hy
        rcases List.mem_cons.mp hy with h | h
        · cases h
        · exact hmin y h
    | fractionRange a b1 c d =>
      obtain ⟨b, hb, hmem, hle, hmin⟩ := ih b0
      refine ⟨b, by simpa only [nearest_int_in_list] using hb, ?_, hle, ?_⟩
      · exact hmem.imp id (List.mem_cons_of_mem _)
      · intro y hy
        rcases List.mem_cons.mp hy with h | h
        · cases h
        · exact hmin y h
    | string str =>
      obtain ⟨b, hb, hmem, hle, hmin⟩ := ih b0
      refine ⟨b, by simpa only [nearest_int_in_list] using hb, ?_, hle, ?_⟩
      · exact hmem.imp id (List.mem_cons_of_mem _)
      · intro y hy
        rcases List.mem_cons.mp hy with h | h
        · cases h
        · exact hmin y h

/-- The search of `nearest_int_in_list` over a list that holds a `gint`: the result
is a `gint` of the list, and no `gint` of the list is nearer to the target. -/
theorem nearest_int_in_list_none (t : Int) (l : List GScalar)
    (hex : ∃ x, GScalar.int x ∈ l) :
    ∃ b, nearest_int_in_list t l none = some b ∧ GScalar.int b ∈ l ∧
      ∀ y, GScalar.int y ∈ l → |t - b| ≤ |t - y| := by
  induction l with
  | nil => obtain ⟨x, hx⟩ := hex; simp at hx
  | cons hd rest ih =>
    have hrest : ∀ (hnot : ∀ x, hd ≠ GScalar.int x),
        nearest_int_in_list t (hd :: rest) none = nearest_int_in_list t rest none →
        ∃ b, nearest_int_in_list t (hd :: rest) none = some b ∧
          GScalar.int b ∈ hd :: rest ∧
          ∀ y, GScalar.int y ∈ hd :: rest → |t - b| ≤ |t - y| := by
      intro hnot heq
      have hex' : ∃ x, GScalar.int x ∈ rest := by
        obtain ⟨x, hx⟩ := hex
        rcases List.mem_cons.mp hx with h | h
        · exact absurd h.symm (hnot x)
        · exact ⟨x, h⟩
      obtain ⟨b, hb, hmem, hmin⟩ := ih hex'
      refine ⟨b, by rw [heq]; exact hb, List.mem_cons_of_mem _ hmem, ?_⟩
      intro y hy
      rcases List.mem_cons.mp hy with h | h
      · exact absurd h.symm (hnot y)
      · exact hmin y h
    cases hd with
    | int x =>
      obtain ⟨b, hb, hmem, hle, hmin⟩ := nearest_int_in_list_some t rest x
      refine ⟨b, by simpa only [nearest_int_in_list] using hb, ?_, ?_⟩
      · rcases hmem with h | h
        · rw [h]; exact List.mem_cons_self _ _
        · exact List.mem_cons_of_mem _ h
      · intro y hy
        rcases List.mem_cons.mp hy with h | h
        · cases h; exact hle
        · exact hmin y h
    | intRange lo hi => exact hrest (fun x h => by cases h) (by simp only [nearest_int_in_list])
    | fraction n d => exact hrest (fun x h => by cases h) (by simp only [nearest_int_in_list])
    | fractionRange a b c d =>
      exact hrest (fun x h => by cases h) (by simp only [nearest_int_in_list])
    | string str => exact hrest (fun x h => by cases h) (by simp only [nearest_int_in_list])

/-- The search of `nearest_int_in_list` over a list without a `gint` finds nothing. -/
theorem nearest_int_in_list_no_int (t : Int) (l : List GScalar)
    (hno : ∀ x, GScalar.int x ∉ l) : nearest_int_in_list t l none = none := by
  induction l with
  | nil => rfl
  | cons hd rest ih =>
    have ih' := ih (fun x hx => hno x (List.mem_cons_of_mem _ hx))
    cases hd with
    | int x => exact absurd (List.mem_cons_self _ _) (hno x)
    | intRange lo hi => simpa only [nearest_int_in_list] using ih'
    | fraction n d => simpa only [nearest_int_in_list] using ih'
    | fractionRange a b c d => simpa only [nearest_int_in_list] using ih'
    | string str => simpa only [nearest_int_in_list] using ih'

/-- A list that holds the target itself is searched to the target. -/
theorem nearest_int_in_list_target (t : Int) (l : List GScalar)
    (hmem : GScalar.int t ∈ l) : nearest_int_in_list t l none = some t := by
  obtain ⟨b, hb, _, hmin⟩ := nearest_int_in_list_none t l ⟨t, hmem⟩
  have h0 : |t - b| ≤ 0 := by simpa using hmin t hmem
  have h1 : t - b = 0 := abs_eq_zero.mp (le_antisymm h0 (abs_nonneg _))
  have h2 : b = t := by omega
  rw [hb, h2]

theorem nearest_int_list_found (st : GstStructure) (name : String) (target b : Int)
    (l : List GScalar) (h : get_value st.fields name = some (.list l))
    (hb : nearest_int_in_list target l none = some b) :
    get_value (gst_structure_fixate_field_nearest_int st name target).fields name
      = some (.scalar (.int b)) := by
  unfold gst_structure_fixate_field_nearest_int
  rw [h]
  simp only [hb]
  exact get_value_set_value_same _ _ _

theorem nearest_int_list_not_found (st : GstStructure) (name : String) (target : Int)
    (l : List GScalar) (h : get_value st.fields name = some (.list l))
    (hb : nearest_int_in_list target l none = none) :
    get_value (gst_structure_fixate_field_nearest_int st name target).fields name
      = some (.list l) := by
  unfold gst_structure_fixate_field_nearest_int
  rw [h]
  simp only [hb]
  exact h

theorem nearest_int_absent (st : GstStructure) (name : String) (target : Int)
    (h : get_value st.fields name = none) :
    get_value (gst_structure_fixate_field_nearest_int st name target).fields name
      = none := by
  unfold gst_structure_fixate_field_nearest_int
  rw [h]
  exact h

theorem nearest_int_other_scalar (st : GstStructure) (name : String) (target : Int)
    (x : GScalar) (h : get_value st.fields name = some (.scalar x))
    (hx : ∀ lo hi, x ≠ GScalar.intRange lo hi) :
    get_value (gst_structure_fixate_field_nearest_int st name target).fields name
      = some (.scalar x) := by
  unfold gst_structure_fixate_field_nearest_int
  rw [h]
  cases x with
  | intRange lo hi => exact absurd rfl (hx lo hi)
  | int v => exact h
  | fraction n d => exact h
  | fractionRange a b c d => exact h
  | string str => exact h

theorem clamp_to_range_inside (lo hi target : Int) (h1 : lo ≤ target) (h2 : target ≤ hi) :
    clamp_to_range lo hi target = target := by
  unfold clamp_to_range
  simp only []
  rw [if_neg (by omega), if_neg (by omega)]

theorem structure_fixate_field (st : GstStructure) (name : String) :
    get_value (gst_structure_fixate st).fields name
      = (get_value st.fields name).map (fun v => (gst_value_fixate v).getD v) := by
  unfold gst_structure_fixate
  simp only []
  induction st.fields with
  | nil => rfl
  | cons kv rest ih =>
    obtain ⟨k, v⟩ := kv
    by_cases hk : k = name
    · simp [get_value, hk]
    · simp [get_value, hk, ih]

/-- The width and the height of the structure `gst_imx_v4l2src_fixate` returns, in
terms of the per-field fixation of the first candidate. -/
theorem fixate_width_height (v : GstImxV4l2Src) (st : GstStructure) (rest : GstCaps) :
    ∃ st' : GstStructure,
      gst_imx_v4l2src_fixate v (st :: rest) = [st'] ∧
      get_value st'.fields "width"
        = (get_value
            (gst_structure_fixate_field_nearest_int st "width" v.capture_width).fields
            "width").map (fun x => (gst_value_fixate x).getD x) ∧
      get_value st'.fields "height"
        = (get_value
            (gst_structure_fixate_field_nearest_int
              (gst_structure_fixate_field_nearest_int st "width" v.capture_width)
              "height" v.capture_height).fields
            "height").map (fun x => (gst_value_fixate x).getD x) := by
  refine ⟨_, rfl, ?_, ?_⟩
  · rw [structure_fixate_field]
    congr 1
    unfold fixate_structure
    simp only []
    rw [get_value_set_value_other _ _ _ _ (by decide),
      nearest_fraction_other_field _ _ _ _ _ (by decide),
      nearest_fraction_other_field _ _ _ _ _ (by decide),
      nearest_int_other_field _ _ _ _ (by decide)]
  · rw [structure_fixate_field]
    congr 1
    unfold fixate_structure
    simp only []
    rw [get_value_set_value_other _ _ _ _ (by decide),
      nearest_fraction_other_field _ _ _ _ _ (by decide),
      nearest_fraction_other_field _ _ _ _ _ (by decide)]

/-- Claim C9 as stated fails for a candidate whose size is already fixed: after a
successful setup on a camera that enumerates 640x480 for mode 0, the candidate
`width=320, height=240` comes out of `gst_imx_v4l2src_fixate` with 320x240. -/
theorem fixate_keeps_fixed_candidate_size :
    dev_vga.enum_framesizes (toGuint new_session.capture_mode) = some (640, 480) ∧
    (gst_imx_v4l2src_capture_setup dev_vga new_session []).1 = 3 ∧
    (gst_imx_v4l2src_capture_setup dev_vga new_session []).2.1.capture_width = 640 ∧
    (gst_imx_v4l2src_capture_setup dev_vga new_session []).2.1.capture_height = 480 ∧
    gst_imx_v4l2src_fixate (gst_imx_v4l2src_capture_setup dev_vga new_session []).2.1
        caps_qvga
      = [{ name := "video/x-raw",
           fields := [("width", .scalar (.int 320)), ("height", .scalar (.int 240)),
                      ("format", .scalar (.string (some "I420")))] }] := by
  decide

/-- The value of a field after `gst_structure_fixate_field_nearest_int` and the
default fixation, for each kind of value the field may hold before. -/
theorem nearest_int_field_cases (s1 : GstStructure) (name : String) (t : Int)
    (r : Option GValue)
    (hr : r = (get_value (gst_structure_fixate_field_nearest_int s1 name t).fields
                name).map (fun x => (gst_value_fixate x).getD x)) :
    (∀ lo hi, get_value s1.fields name = some (.scalar (.intRange lo hi)) →
      r = some (.scalar (.int (clamp_to_range lo hi t))) ∧
      (lo ≤ t → t ≤ hi → r = some (.scalar (.int t)))) ∧
    (∀ x, get_value s1.fields name = some (.scalar (.int x)) →
      r = some (.scalar (.int x))) ∧
    (∀ l, get_value s1.fields name = some (.list l) → (∃ x, GScalar.int x ∈ l) →
      ∃ b, r = some (.scalar (.int b)) ∧ GScalar.int b ∈ l ∧
        ∀ y, GScalar.int y ∈ l → |t - b| ≤ |t - y|) ∧
    (∀ l, get_value s1.fields name = some (.list l) → GScalar.int t ∈ l →
      r = some (.scalar (.int t))) ∧
    (∀ l, get_value s1.fields name = some (.list l) → (∀ x, GScalar.int x ∉ l) →
      r = some ((gst_value_fixate (.list l)).getD (.list l))) ∧
    (∀ x, get_value s1.fields name = some (.scalar x) →
      (∀ lo hi, x ≠ GScalar.intRange lo hi) →
      r = some ((gst_value_fixate (.scalar x)).getD (.scalar x))) ∧
    (get_value s1.fields name = none → r = none) := by
  subst hr
  refine ⟨?_, ?_, ?_, ?_, ?_, ?_, ?_⟩
  · intro lo hi h
    have hval : (get_value (gst_structure_fixate_field_nearest_int s1 name t).fields
        name).map (fun x => (gst_value_fixate x).getD x)
          = some (.scalar (.int (clamp_to_range lo hi t))) := by
      rw [nearest_int_range s1 name t lo hi h]; rfl
    refine ⟨hval, ?_⟩
    intro h1 h2
    rw [hval, clamp_to_range_inside lo hi t h1 h2]
  · intro x h
    rw [nearest_int_fixed s1 name t x h]; rfl
  · intro l h hex
    obtain ⟨b, hb, hmem, hmin⟩ := nearest_int_in_list_none t l hex
    refine ⟨b, ?_, hmem, hmin⟩
    rw [nearest_int_list_found s1 name t b l h hb]; rfl
  · intro l h hmem
    rw [nearest_int_list_found s1 name t t l h (nearest_int_in_list_target t l hmem)]; rfl
  · intro l h hno
    rw [nearest_int_list_not_found s1 name t l h (nearest_int_in_list_no_int t l hno)]; rfl
  · intro x h hx
    rw [nearest_int_other_scalar s1 name t x h hx]; rfl
  · intro h
    rw [nearest_int_absent s1 name t h]; rfl

/-- Claim C9, amended. For every device and every capture mode the device supports,
a successful `gst_imx_v4l2src_capture_setup` records as capture width and height the
size the device enumerates for that mode (converted to `gint`, which is the same
number below `2^31`). `gst_imx_v4l2src_fixate` then returns the first candidate
with its width and height fixated towards that size, whatever the candidate offers:
a range becomes the point of the range nearest to the capture size, which is the
capture size itself when the range contains it; a list that holds a `gint` becomes
a `gint` of the list at the least distance from the capture size, which is the
capture size itself when the list holds it; a value already fixed stays as offered;
a list without a `gint` and every other kind of value get the default fixation of
the library; and a field the candidate does not have stays absent. -/
theorem capture_size_recorded_and_fixated (dev : Device) (v : GstImxV4l2Src)
    (fds : FdTable) (w h : Nat)
    (hmode : dev.enum_framesizes (toGuint v.capture_mode) = some (w, h))
    (hok : ¬ (gst_imx_v4l2src_capture_setup dev v fds).1 < 0) :
    (gst_imx_v4l2src_capture_setup dev v fds).2.1.capture_width = toGint w ∧
    (gst_imx_v4l2src_capture_setup dev v fds).2.1.capture_height = toGint h ∧
    (w < 2147483648 → (gst_imx_v4l2src_capture_setup dev v fds).2.1.capture_width = w) ∧
    (h < 2147483648 → (gst_imx_v4l2src_capture_setup dev v fds).2.1.capture_height = h) ∧
    ∀ (st : GstStructure) (rest : GstCaps),
      ∃ st' : GstStructure,
        gst_imx_v4l2src_fixate (gst_imx_v4l2src_capture_setup dev v fds).2.1 (st :: rest)
          = [st'] ∧
        (
        (∀ lo hi, get_value st.fields "width" = some (.scalar (.intRange lo hi)) →
          get_value st'.fields "width"
            = some (.scalar (.int (clamp_to_range lo hi (toGint w)))) ∧
          (lo ≤ toGint w → toGint w ≤ hi →
            get_value st'.fields "width" = some (.scalar (.int (toGint w))))) ∧
        (∀ x, get_value st.fields "width" = some (.scalar (.int x)) →
          get_value st'.fields "width" = some (.scalar (.int x))) ∧
        (∀ l, get_value st.fields "width" = some (.list l) →
          (∃ x, GScalar.int x ∈ l) →
          ∃ b, get_value st'.fields "width" = some (.scalar (.int b)) ∧
            GScalar.int b ∈ l ∧ ∀ y, GScalar.int y ∈ l → |toGint w - b| ≤ |toGint w - y|) ∧
        (∀ l, get_value st.fields "width" = some (.list l) →
          GScalar.int (toGint w) ∈ l →
          get_value st'.fields "width" = some (.scalar (.int (toGint w)))) ∧
        (∀ l, get_value st.fields "width" = some (.list l) →
          (∀ x, GScalar.int x ∉ l) →
          get_value st'.fields "width"
            = some ((gst_value_fixate (.list l)).getD (.list l))) ∧
        (∀ x, get_value st.fields "width" = some (.scalar x) →
          (∀ lo hi, x ≠ GScalar.intRange lo hi) →
          get_value st'.fields "width"
            = some ((gst_value_fixate (.scalar x)).getD (.scalar x))) ∧
        (get_value st.fields "width" = none → get_value st'.fields "width" = none)
        ) ∧
        (
        (∀ lo hi, get_value st.fields "height" = some (.scalar (.intRange lo hi)) →
          get_value st'.fields "height"
            = some (.scalar (.int (clamp_to_range lo hi (toGint h)))) ∧
          (lo ≤ toGint h → toGint h ≤ hi →
            get_value st'.fields "height" = some (.scalar (.int (toGint h))))) ∧
        (∀ x, get_value st.fields "height" = some (.scalar (.int x)) →
          get_value st'.fields "height" = some (.scalar (.int x))) ∧
        (∀ l, get_value st.fields "height" = some (.list l) →
          (∃ x, GScalar.int x ∈ l) →
          ∃ b, get_value st'.fields "height" = some (.scalar (.int b)) ∧
            GScalar.int b ∈ l ∧ ∀ y, GScalar.int y ∈ l → |toGint h - b| ≤ |toGint h - y|) ∧
        (∀ l, get_value st.fields "height" = some (.list l) →
          GScalar.int (toGint h) ∈ l →
          get_value st'.fields "height" = some (.scalar (.int (toGint h)))) ∧
        (∀ l, get_value st.fields "height" = some (.list l) →
          (∀ x, GScalar.int x ∉ l) →
          get_value st'.fields "height"
            = some ((gst_value_fixate (.list l)).getD (.list l))) ∧
        (∀ x, get_value st.fields "height" = some (.scalar x) →
          (∀ lo hi, x ≠ GScalar.intRange lo hi) →
          get_value st'.fields "height"
            = some ((gst_value_fixate (.scalar x)).getD (.scalar x))) ∧
        (get_value st.fields "height" = none → get_value st'.fields "height" = none)
        ) := by
  have hsize : (gst_imx_v4l2src_capture_setup dev v fds).2.1 = with_capture_size v w h := by
    rw [capture_setup_cases] at hok ⊢
    by_cases hfd : dev.open_dev v.devicename < 0
    · simp [hfd] at hok
    · simp only [hfd, if_false, hmode] at hok ⊢
      split_ifs <;> rfl
  have hw : (gst_imx_v4l2src_capture_setup dev v fds).2.1.capture_width = toGint w := by
    rw [hsize]; rfl
  have hh : (gst_imx_v4l2src_capture_setup dev v fds).2.1.capture_height = toGint h := by
    rw [hsize]; rfl
  refine ⟨hw, hh, ?_, ?_, ?_⟩
  · intro hlt; rw [hw, toGint_of_lt w hlt]
  · intro hlt; rw [hh, toGint_of_lt h hlt]
  · intro st rest
    obtain ⟨st', hfix, hwidth, hheight⟩ :=
      fixate_width_height (gst_imx_v4l2src_capture_setup dev v fds).2.1 st rest
    rw [hw] at hwidth
    rw [hw, hh] at hheight
    have hW := nearest_int_field_cases st "width" (toGint w) _ hwidth
    have hH := nearest_int_field_cases
      (gst_structure_fixate_field_nearest_int st "width" (toGint w)) "height" (toGint h)
      _ hheight
    rw [nearest_int_other_field st "width" "height" (toGint w) (by decide)] at hH
    exact ⟨st', hfix, hW, hH⟩

/-- Claim C9, amended, at a concrete input: the 640x480 camera, the default session
with the supported mode 0, and the caps the element advertises as candidates. -/
theorem capture_size_recorded_and_fixated_witness :
    (gst_imx_v4l2src_capture_setup dev_vga new_session []).2.1.capture_width = 640 ∧
    (gst_imx_v4l2src_capture_setup dev_vga new_session []).2.1.capture_height = 480 ∧
    ∃ st' : GstStructure,
      gst_imx_v4l2src_fixate (gst_imx_v4l2src_capture_setup dev_vga new_session []).2.1
          (gst_imx_v4l2src_get_caps new_session none) = [st'] ∧
      get_value st'.fields "width" = some (.scalar (.int (toGint 640))) ∧
      get_value st'.fields "height" = some (.scalar (.int (toGint 480))) := by
  have hall := capture_size_recorded_and_fixated dev_vga new_session [] 640 480
    (by decide) (by decide)
  obtain ⟨_, _, hw, hh, hfixate⟩ := hall
  obtain ⟨st', hfix, hwidth, hheight⟩ :=
    hfixate
      { name := "video/x-raw",
        fields :=
          [("format", .scalar (.string (some "I420"))),
           ("width", .scalar (.intRange 16 G_MAXINT)),
           ("height", .scalar (.intRange 16 G_MAXINT)),
           ("framerate", .scalar (.fractionRange 0 1 100 1)),
           ("pixel-aspect-ratio", .scalar (.fractionRange 0 1 100 1))] } []
  exact ⟨hw (by decide), hh (by decide), st', hfix,
    (hwidth.1 16 G_MAXINT (by decide)).2 (by decide) (by decide),
    (hheight.1 16 G_MAXINT (by decide)).2 (by decide) (by decide)⟩

/-- A candidate that offers the sizes as lists, width 320 or 640 and height 240 or
480, comes out at 640x480 after a successful setup on the 640x480 camera. -/
theorem fixate_listed_sizes_vga :
    gst_imx_v4l2src_fixate (gst_imx_v4l2src_capture_setup dev_vga new_session []).2.1
        caps_listed_sizes
      = [{ name := "video/x-raw",
           fields := [("width", .scalar (.int 640)), ("height", .scalar (.int 480)),
                      ("format", .scalar (.string (some "I420")))] }] := by
  decide

/-- The caps the element advertises, fixated after a successful setup on the 640x480
camera, come out at 640x480. -/
theorem fixate_advertised_caps_vga :
    gst_imx_v4l2src_fixate (gst_imx_v4l2src_capture_setup dev_vga new_session []).2.1
        (gst_imx_v4l2src_get_caps new_session none)
      = [{ name := "video/x-raw",
           fields := [("format", .scalar (.string (some "I420"))),
                      ("width", .scalar (.int 640)),
                      ("height", .scalar (.int 480)),
                      ("framerate", .scalar (.fraction 30 1)),
                      ("pixel-aspect-ratio", .scalar (.fraction 1 1))] }] := by
  decide

end ImxV4l2Src
